import Mathlib

/-!
# Laigter preview widget (`src/open_gl_widget.cpp`)

A shallow embedding of the state and the operations of `OpenGlWidget`.

Modelling conventions.

* `float`/`double` values are rationals (exact arithmetic); `int` values are
  integers; a conversion `double -> int` is truncation toward zero
  (`truncToInt`).  Overflow of `int` is not modelled.
* `LightSource *`, `QList<LightSource *> *` and `ImageProcessor *` are
  addresses (natural numbers) into three stores kept in the widget state:
  `lights`/`live` (the light objects and whether the address is allocated),
  `lists` (the light lists) and `procs` (the sprites).  `delete` clears
  `live`; the memory cell keeps its last contents.
* `new LightSource()` is answered by the allocator: the address and the
  default-constructed object it returns are arguments of the operation that
  allocates.
* Qt signals and calls into the user interface do not change the widget
  state; they are appended to the `signals` log of the state.
* OpenGL calls are not modelled, apart from the values they are given
  (transforms, buffer sizes, crop rectangle) and the uniforms that
  `apply_light_params` sets, which are logged in `uniforms`.
* `QString` is a list of characters; the file system is the predicate
  `QFileInfo::exists`; a loop that may run for long takes a fuel argument.
-/

namespace Laigter

/-! ## Data model -/

abbrev LightPtr := Nat
abbrev ListPtr := Nat
abbrev ProcPtr := Nat

/-- Three floats, as `QVector3D`. -/
structure QVector3D where
  x : ℚ
  y : ℚ
  z : ℚ
deriving DecidableEq

/-- The colour channels read with `getRgbF`. -/
structure QColor where
  r : ℚ
  g : ℚ
  b : ℚ
deriving DecidableEq

/-- Only the size of a `QImage` is tracked. -/
structure QImage where
  width : ℤ
  height : ℤ
deriving DecidableEq

/-- Modelled from the spec: the class `LightSource` is declared outside
`open_gl_widget.cpp`.  The fields are the attributes of spec section 3
(position, diffuse and specular colour, diffuse and specular intensity,
specular scatter exponent) that the widget reads with `get_light_position`,
`get_diffuse_color`, `get_specular_color`, `get_diffuse_intensity`,
`get_specular_intesity` and `get_specular_scatter`; `get_height` is the `z` of
the position. -/
structure LightSource where
  lightPosition : QVector3D
  diffuseColor : QColor
  specularColor : QColor
  diffuseIntensity : ℚ
  specularIntensity : ℚ
  specularScatter : ℤ
deriving DecidableEq

/-- Modelled from the spec: `LightSource::copy_settings` is not defined in
`open_gl_widget.cpp`; the spec (4.2) says that adding a light
"clones settings from `base` (color, intensity, scatter, position) into a new
light".  The receiver is `dst`, the argument is `src`. -/
def LightSource.copy_settings (dst src : LightSource) : LightSource :=
  { dst with
    lightPosition := src.lightPosition
    diffuseColor := src.diffuseColor
    specularColor := src.specularColor
    diffuseIntensity := src.diffuseIntensity
    specularIntensity := src.specularIntensity
    specularScatter := src.specularScatter }

/-- Modelled from the spec: the class `ImageProcessor` (a sprite) is declared
outside `open_gl_widget.cpp`.  The fields are the attributes of spec sections
3 and 6 that the widget reads or writes through `get_position`, `get_offset`,
`get_zoom`, `get_tile_x`, `get_tile_y`, `get_is_parallax`, `get_selected`,
`get_texture`, `get_light_list_ptr` and `get_name`.
`texture` is both the public member `texture` and `*get_texture()`;
`frameDiffuse` is the result of
`get_current_frame()->get_image(TextureTypes::Diffuse, &img)`: `none` when
the call returns false, `some img` when it returns true and fills `img`. -/
structure ImageProcessor where
  position : QVector3D
  offset : QVector3D
  zoom : ℚ
  tile_x : Bool
  tile_y : Bool
  is_parallax : Bool
  selected : Bool
  texture : QImage
  frameDiffuse : Option QImage
  light_list_ptr : ListPtr
  name : String

/-- What the widget emits or asks of the user interface; `update` is the
call `QOpenGLWidget::update()`, the request for a repaint. -/
inductive Signal where
  | selectedLightChanged (light : LightPtr)
  | processor_selected (processor : ProcPtr) (selected : Bool)
  | set_enabled_light_controls (enabled : Bool)
  | stopAddingLight
  | update
deriving DecidableEq

/-- Whether a logged signal is `selectedLightChanged`. -/
def Signal.isLightChange : Signal → Bool
  | Signal.selectedLightChanged _ => true
  | _ => false

/-- The uniforms of `m_program` that `apply_light_params` sets.  The name
`"Light[" + QString::number(i) + "]" + ".lightPos"` is `lightPos i`, and so
on for the other fields of the light array. -/
inductive UniformName where
  | lightNum
  | lightPos (i : ℕ)
  | lightColor (i : ℕ)
  | specColor (i : ℕ)
  | diffIntensity (i : ℕ)
  | specIntensity (i : ℕ)
  | specScatter (i : ℕ)
  | ambientColor
  | ambientIntensity
deriving DecidableEq

/-- The value given to `setUniformValue`: an `int`, a `float` or a
`QVector3D`. -/
inductive UniformValue where
  | int (n : ℤ)
  | float (q : ℚ)
  | vec3 (x y z : ℚ)
deriving DecidableEq

/-- The members of `OpenGlWidget` that the modelled operations read or
write, with the names they have in `open_gl_widget.cpp`.
`width`/`height` are the widget's `width()`/`height()`; `laigter` is
the light marker icon; `brushActive` is
`currentBrush && currentBrush->get_selected()`; `arrowCursor` is
`cursor() == QCursor(Qt::ArrowCursor)`; `uniforms` is the sequence of the
calls `m_program.setUniformValue(name, value)` made for the names of
`UniformName`, oldest first (the value of a uniform is the one of the last
call for its name). -/
structure OpenGlWidget where
  lights : LightPtr → LightSource
  live : LightPtr → Bool
  lists : ListPtr → List LightPtr
  procs : ProcPtr → ImageProcessor
  processorList : List ProcPtr
  processor : ProcPtr
  sampleLightList : ListPtr
  currentLightList : ListPtr
  currentLight : LightPtr
  lightPosition : QVector3D
  sample_light_list_used : Bool
  addLight : Bool
  lightSelected : Bool
  m_light : Bool
  need_to_update : Bool
  export_render : Bool
  width : ℤ
  height : ℤ
  laigter : QImage
  m_image : QImage
  sx : ℚ
  sy : ℚ
  pixelsX : ℤ
  pixelsY : ℤ
  oldPos : ℤ × ℤ
  brushActive : Bool
  signals : List Signal
  ambientColor : QColor
  ambientIntensity : ℚ
  backgroundColor : QColor
  parallax_height : ℚ
  m_pixelated : Bool
  m_toon : Bool
  pixelSize : ℤ
  m_fullPreview : Bool
  arrowCursor : Bool
  uniforms : List (UniformName × UniformValue)

/-! ## Light list manager -/

/-- The list that `set_add_light` and `remove_light` work on:
`sampleLightList` in shared mode, `currentLightList` otherwise. -/
def activeListPtr (s : OpenGlWidget) : ListPtr :=
  if s.sample_light_list_used then s.sampleLightList else s.currentLightList

/-- The contents of the active light list. -/
def activeList (s : OpenGlWidget) : List LightPtr :=
  s.lists (activeListPtr s)

/-- `OpenGlWidget::select_light`. -/
def select_light (light : LightPtr) (s : OpenGlWidget) : OpenGlWidget :=
  { s with
    currentLight := light
    signals := s.signals ++ [Signal.selectedLightChanged light] }

/-- `OpenGlWidget::remove_light`.  `removeOne` removes the first occurrence
(`List.erase`); `last()` is taken of the list after the removal, which is not
empty because the list had more than one member. -/
def remove_light (light : LightPtr) (s : OpenGlWidget) : OpenGlWidget :=
  let lList := if s.sample_light_list_used then s.sampleLightList else s.currentLightList
  if h : (s.lists lList).length > 1 then
    let rest := (s.lists lList).erase light
    let s1 := { s with lists := Function.update s.lists lList rest }
    let s2 :=
      if s1.currentLight = light then
        select_light (rest.getLast (by
          intro hnil
          have hlen := List.length_erase light (s.lists lList)
          have h0 : rest.length = 0 := by rw [hnil]; rfl
          have h0' : ((s.lists lList).erase light).length = 0 := h0
          rw [hlen] at h0'
          split at h0' <;> omega)) s1
      else s1
    { s2 with
      live := Function.update s2.live light false
      need_to_update := true }
  else s

/-- `OpenGlWidget::set_add_light`.  `l` and `fresh` are the address and the
object that `new LightSource()` returns (used only when `add` is true). -/
def set_add_light (add : Bool) (l : LightPtr) (fresh : LightSource)
    (s : OpenGlWidget) : OpenGlWidget :=
  let s1 :=
    if add then
      let a := { s with
        lights := Function.update s.lights l fresh
        live := Function.update s.live l true }
      let b := { a with
        lights := (Function.update a.lights l
          ((a.lights l).copy_settings (a.lights a.currentLight))) }
      let c := select_light l b
      let d :=
        if c.sample_light_list_used then
          { c with
            lists := (Function.update c.lists c.sampleLightList
              (c.lists c.sampleLightList ++ [l])) }
        else
          { c with
            lists := (Function.update c.lists c.currentLightList
              (c.lists c.currentLightList ++ [l])) }
      { d with need_to_update := true }
    else if s.addLight then remove_light s.currentLight s
    else s
  { s1 with addLight := add }

/-- One call of the light list manager: add a light (with the allocator's
answer), cancel adding, or remove a light. -/
inductive LightAction where
  | add (l : LightPtr) (fresh : LightSource)
  | cancel
  | remove (l : LightPtr)

/-- The state after one call. -/
def LightAction.run (a : LightAction) (s : OpenGlWidget) : OpenGlWidget :=
  match a with
  | LightAction.add l fresh => set_add_light true l fresh s
  | LightAction.cancel => set_add_light false 0 (s.lights 0) s
  | LightAction.remove l => remove_light l s

/-- The state after a sequence of calls, first call first. -/
def runLightActions (as : List LightAction) (s : OpenGlWidget) : OpenGlWidget :=
  as.foldl (fun st a => a.run st) s

/-! ## Coordinate conversions -/

/-- Conversion of a `double` to `int`: truncation toward zero. -/
def truncToInt (q : ℚ) : ℤ :=
  if 0 ≤ q then ⌊q⌋ else ⌈q⌉

/-- The mouse position in device space, as computed in `mousePressEvent`
and `mouseMoveEvent`:
`mouseX = (float)localPos.x() / width() * 2 - 1`,
`mouseY = -(float)localPos.y() / height() * 2 + 1`. -/
def screen_to_device (w h : ℤ) (p : ℚ × ℚ) : ℚ × ℚ :=
  (p.1 / w * 2 - 1, -p.2 / h * 2 + 1)

/-- The screen position of a device-space point, as computed for the crop
in `calculate_preview`: `0.5 * (x + 1) * width()`,
`0.5 * (-y + 1) * height()`. -/
def device_to_screen (w h : ℤ) (d : ℚ × ℚ) : ℚ × ℚ :=
  (0.5 * (d.1 + 1) * w, 0.5 * (-d.2 + 1) * h)

/-- The x coordinate given to `tpos.setX` in `mousePressEvent` and
`mouseMoveEvent`, before the conversion to `int`. -/
def tposX (w : ℤ) (p : ImageProcessor) (px : ℚ) : ℚ :=
  if !p.tile_x then
    (px - ((p.position.x + 1) * w - p.texture.width * p.zoom) * 0.5) / p.zoom
  else px / p.zoom

/-- The y coordinate given to `tpos.setY`, before the conversion to `int`. -/
def tposY (h : ℤ) (p : ImageProcessor) (py : ℚ) : ℚ :=
  if !p.tile_y then
    (py - ((-p.position.y + 1) * h - p.texture.height * p.zoom) * 0.5) / p.zoom
  else py / p.zoom

/-- The `QPoint tpos` handed to the brush. -/
def tpos (w h : ℤ) (p : ImageProcessor) (localPos : ℚ × ℚ) : ℤ × ℤ :=
  (truncToInt (tposX w p localPos.1), truncToInt (tposY h p localPos.2))

/-! ## Draw transform -/

/-- A `QMatrix4x4` that is built from the identity with `translate` and
`scale` only: `x` goes to `tx + mx * x` and `y` to `ty + my * y`. -/
structure QMatrix4x4 where
  tx : ℚ
  ty : ℚ
  mx : ℚ
  my : ℚ
deriving DecidableEq

/-- `setToIdentity`. -/
def QMatrix4x4.identity : QMatrix4x4 := ⟨0, 0, 1, 1⟩

/-- `translate`: the matrix is multiplied on the right by a translation. -/
def QMatrix4x4.translate (m : QMatrix4x4) (vx vy : ℚ) : QMatrix4x4 :=
  { m with tx := m.tx + m.mx * vx, ty := m.ty + m.my * vy }

/-- `scale`: the matrix is multiplied on the right by a scaling. -/
def QMatrix4x4.scale (m : QMatrix4x4) (ax ay : ℚ) : QMatrix4x4 :=
  { m with mx := m.mx * ax, my := m.my * ay }

/-- The image of a point of the plane. -/
def QMatrix4x4.map (m : QMatrix4x4) (v : ℚ × ℚ) : ℚ × ℚ :=
  (m.tx + m.mx * v.1, m.ty + m.my * v.2)

/-- The locals of the sprite loop that make the draw transform. -/
structure DrawTransform where
  texPos : ℚ × ℚ
  scaleX : ℚ
  scaleY : ℚ
  zoomX : ℚ
  zoomY : ℚ
  transform : QMatrix4x4
deriving DecidableEq

/-- The draw transform of one sprite, as computed in `update_scene`
(lines 225-239) and again in the full-canvas branch of `calculate_preview`
(lines 1054-1068); `sx`, `sy` are the widget members of that name.  The
rotation of `update_scene` is by the static `rotation`, which is always 0. -/
def spriteTransform (sx sy : ℚ) (p : ImageProcessor) : DrawTransform :=
  let texPosX := if p.tile_x then 0 else p.position.x
  let texPosY := if p.tile_y then 0 else p.position.y
  let t0 := QMatrix4x4.identity.translate texPosX texPosY
  let scaleX := if !p.tile_x then sx else 1
  let scaleY := if !p.tile_y then sy else 1
  let t1 := t0.scale scaleX scaleY
  let zoomX := if !p.tile_x then p.zoom else 1
  let zoomY := if !p.tile_y then p.zoom else 1
  let t2 := t1.scale zoomX zoomY
  { texPos := (texPosX, texPosY)
    scaleX := scaleX
    scaleY := scaleY
    zoomX := zoomX
    zoomY := zoomY
    transform := t2 }

/-- `OpenGlWidget::setImage` (the texture upload itself is not modelled). -/
def setImage (image : QImage) (s : OpenGlWidget) : OpenGlWidget :=
  { s with
    sx := (image.width : ℚ) / s.width
    sy := (image.height : ℚ) / s.height
    pixelsX := image.width
    pixelsY := image.height }

/-- One round of the sprite loop of `update_scene`: the diffuse frame, when
there is one, is read into `m_image` and handed to `setImage`; then the draw
transform is computed. -/
def update_scene_sprite (s : OpenGlWidget) (pp : ProcPtr) :
    OpenGlWidget × DrawTransform :=
  let p := s.procs pp
  let s1 :=
    match p.frameDiffuse with
    | some img => setImage img { s with m_image := img }
    | none => s
  (s1, spriteTransform s1.sx s1.sy p)

/-- The sprite loop of `update_scene`: the state after it and the transform
uploaded for each sprite, in draw order. -/
def update_scene_sprites (s : OpenGlWidget) : OpenGlWidget × List DrawTransform :=
  s.processorList.foldl
    (fun acc pp =>
      let r := update_scene_sprite acc.1 pp
      (r.1, acc.2 ++ [r.2]))
    (s, [])

/-! ## Mouse press -/

/-- A mouse event: `localPos()`, the bits of `buttons()`, and whether
`QApplication::keyboardModifiers()` is `Qt::CTRL`. -/
structure QMouseEvent where
  localPos : ℚ × ℚ
  leftButton : Bool
  midButton : Bool
  rightButton : Bool
  ctrl : Bool

/-- `OpenGlWidget::set_processor_selected`: only emits the signal. -/
def set_processor_selected (pp : ProcPtr) (selected : Bool)
    (s : OpenGlWidget) : OpenGlWidget :=
  { s with signals := s.signals ++ [Signal.processor_selected pp selected] }

/-- `OpenGlWidget::set_all_processors_selected`. -/
def set_all_processors_selected (selected : Bool) (s : OpenGlWidget) : OpenGlWidget :=
  s.processorList.foldl (fun st pp => set_processor_selected pp selected st) s

/-- The call `set_enabled_light_controls(b)`. -/
def set_enabled_light_controls (b : Bool) (s : OpenGlWidget) : OpenGlWidget :=
  { s with signals := s.signals ++ [Signal.set_enabled_light_controls b] }

/-- The call `stopAddingLight()`. -/
def stopAddingLight (s : OpenGlWidget) : OpenGlWidget :=
  { s with signals := s.signals ++ [Signal.stopAddingLight] }

/-- The test made on each light by the mouse press: the mouse is within
`lightWidth`, `lightHeight` of the light position (just stored in the member
`lightPosition`) and the markers are shown. -/
def lightHit (mouseX mouseY lightWidth lightHeight : ℚ) (s : OpenGlWidget) : Prop :=
  |mouseX - s.lightPosition.x| < lightWidth ∧
    |mouseY - s.lightPosition.y| < lightHeight ∧ s.m_light = true

instance (mouseX mouseY lightWidth lightHeight : ℚ) (s : OpenGlWidget) :
    Decidable (lightHit mouseX mouseY lightWidth lightHeight s) :=
  inferInstanceAs (Decidable (_ ∧ _ ∧ _))

/-- The loop over one light list on a left click (lines 548-558 and
565-576): stops at the first light that is hit and selects it. -/
def selectLoop (mouseX mouseY lightWidth lightHeight : ℚ) :
    List LightPtr → OpenGlWidget → OpenGlWidget
  | [], s => s
  | light :: rest, s =>
    let s1 := { s with lightPosition := (s.lights light).lightPosition }
    if lightHit mouseX mouseY lightWidth lightHeight s1 then
      select_light light { s1 with lightSelected := true }
    else selectLoop mouseX mouseY lightWidth lightHeight rest s1

/-- The loop over the sprites' light lists on a left click in per-sprite
mode (lines 562-579). -/
def selectLoopProcs (mouseX mouseY lightWidth lightHeight : ℚ) :
    List ProcPtr → OpenGlWidget → OpenGlWidget
  | [], s => s
  | pp :: rest, s =>
    let s1 := { s with currentLightList := (s.procs pp).light_list_ptr }
    let s2 := selectLoop mouseX mouseY lightWidth lightHeight
      (s1.lists s1.currentLightList) s1
    if s2.lightSelected then s2
    else selectLoopProcs mouseX mouseY lightWidth lightHeight rest s2

/-- One round of the sprite picking loop (lines 587-604); the Boolean is the
local `selected`. -/
def pickSpriteStep (mouseX mouseY : ℚ) (acc : OpenGlWidget × Bool) (pp : ProcPtr) :
    OpenGlWidget × Bool :=
  let s := acc.1
  let p0 := s.procs pp
  let p := { p0 with
    offset := ⟨mouseX - p0.position.x, mouseY - p0.position.y, 0 - p0.position.z⟩ }
  let s1 := { s with procs := Function.update s.procs pp p }
  let w : ℚ := if p.tile_x then 2 else p.zoom * p.texture.width / s1.width
  let h : ℚ := if p.tile_y then 2 else p.zoom * p.texture.height / s1.height
  if |mouseX - p.position.x| < w ∧ |mouseY - p.position.y| < h ∧ acc.2 = false then
    (set_processor_selected pp true s1, true)
  else (s1, acc.2)

/-- The loop over one light list on a right click (lines 618-631 and
643-657): skips the current light, removes the first other light that is
hit; the Boolean tells whether the loop ended on a hit. -/
def removeLoop (mouseX mouseY lightWidth lightHeight : ℚ) :
    List LightPtr → OpenGlWidget → OpenGlWidget × Bool
  | [], s => (s, false)
  | light :: rest, s =>
    if light = s.currentLight then
      removeLoop mouseX mouseY lightWidth lightHeight rest s
    else
      let s1 := { s with lightPosition := (s.lights light).lightPosition }
      if lightHit mouseX mouseY lightWidth lightHeight s1 then
        (remove_light light s1, true)
      else removeLoop mouseX mouseY lightWidth lightHeight rest s1

/-- The loop over the sprites' light lists on a right click in per-sprite
mode (lines 639-660); the Boolean is the local `removed`. -/
def removeLoopProcs (mouseX mouseY lightWidth lightHeight : ℚ) :
    List ProcPtr → OpenGlWidget → OpenGlWidget × Bool
  | [], s => (s, false)
  | pp :: rest, s =>
    let s1 := { s with currentLightList := (s.procs pp).light_list_ptr }
    let r := removeLoop mouseX mouseY lightWidth lightHeight
      (s1.lists s1.currentLightList) s1
    if r.2 then r
    else removeLoopProcs mouseX mouseY lightWidth lightHeight rest r.1

/-- The brush part of `mousePressEvent` (lines 500-524): `oldPos = tpos`;
the call `currentBrush->mousePress(tpos)` leaves the widget as it is. -/
def mousePressBrush (event : QMouseEvent) (s : OpenGlWidget) : OpenGlWidget :=
  if s.brushActive then
    { s with oldPos := tpos s.width s.height (s.procs s.processor) event.localPos }
  else s

/-- The search for a light under the mouse on a left click (lines
546-580): over the sample list in shared mode, over the sprites' lists
otherwise. -/
def selectLights (mouseX mouseY lightWidth lightHeight : ℚ) (s : OpenGlWidget) :
    OpenGlWidget :=
  if s.sample_light_list_used then
    selectLoop mouseX mouseY lightWidth lightHeight (s.lists s.sampleLightList) s
  else
    selectLoopProcs mouseX mouseY lightWidth lightHeight s.processorList s

/-- The search for a sprite under the mouse (lines 582-608), made when no
light is selected; the loop runs from the last sprite to the first. -/
def pickSprites (mouseX mouseY : ℚ) (s : OpenGlWidget) : OpenGlWidget :=
  if !s.lightSelected then
    (s.processorList.reverse.foldl (pickSpriteStep mouseX mouseY)
      (set_enabled_light_controls false s, false)).1
  else set_enabled_light_controls true s

/-- The bounds test made on sprite `pp` by the sprite loop of
`mousePressEvent` (lines 590-599), without the local `selected`: the half
extent is 2 on a tiled axis, zoom * texture size / viewport size otherwise,
and the distance is taken from the sprite's position on both. -/
def spriteHit (mouseX mouseY : ℚ) (s : OpenGlWidget) (pp : ProcPtr) : Prop :=
  |mouseX - (s.procs pp).position.x| <
      (if (s.procs pp).tile_x then 2
        else (s.procs pp).zoom * (s.procs pp).texture.width / s.width) ∧
    |mouseY - (s.procs pp).position.y| <
      (if (s.procs pp).tile_y then 2
        else (s.procs pp).zoom * (s.procs pp).texture.height / s.height)

instance (mouseX mouseY : ℚ) (s : OpenGlWidget) (pp : ProcPtr) :
    Decidable (spriteHit mouseX mouseY s pp) :=
  inferInstanceAs (Decidable (_ ∧ _))

/-- The sprite after the call
`set_offset(QVector3D(mouseX, mouseY, 0) - *get_position())` (lines
588-589). -/
def withDragOffset (mouseX mouseY : ℚ) (p : ImageProcessor) : ImageProcessor :=
  { p with offset := ⟨mouseX - p.position.x, mouseY - p.position.y, 0 - p.position.z⟩ }

/-- The branch of `mousePressEvent` for the left or middle button (lines
534-609, and the final `need_to_update = true`, which the early return of
add mode skips). -/
def mousePressLeft (mouseX mouseY lightWidth lightHeight : ℚ) (ctrl : Bool)
    (l : LightPtr) (fresh : LightSource) (s : OpenGlWidget) : OpenGlWidget :=
  if s.addLight then
    set_add_light true l fresh s
  else
    let s1 := if !ctrl then set_all_processors_selected false s else s
    let s2 := selectLights mouseX mouseY lightWidth lightHeight s1
    let s3 := pickSprites mouseX mouseY s2
    { s3 with need_to_update := true }

/-- The branch of `mousePressEvent` for the right button (lines 612-663). -/
def mousePressRight (mouseX mouseY lightWidth lightHeight : ℚ)
    (s : OpenGlWidget) : OpenGlWidget :=
  if s.sample_light_list_used then
    let count := (s.lists s.sampleLightList).length
    if s.addLight && decide (count > 0) then
      let r := removeLoop mouseX mouseY lightWidth lightHeight
        (s.lists s.sampleLightList) s
      if count = (r.1.lists r.1.sampleLightList).length then stopAddingLight r.1
      else r.1
    else s
  else
    let r := removeLoopProcs mouseX mouseY lightWidth lightHeight s.processorList s
    if !r.2 then stopAddingLight r.1 else r.1

/-- `OpenGlWidget::mousePressEvent`.  `l` and `fresh` are the allocator's
answer, used when the press adds a light. -/
def mousePressEvent (event : QMouseEvent) (l : LightPtr) (fresh : LightSource)
    (s : OpenGlWidget) : OpenGlWidget :=
  let s0 := mousePressBrush event s
  let lightWidth : ℚ := (s0.laigter.width : ℚ) / s0.width * 0.3
  let lightHeight : ℚ := (s0.laigter.height : ℚ) / s0.height * 0.3
  let mouse := screen_to_device s0.width s0.height event.localPos
  if event.leftButton || event.midButton then
    mousePressLeft mouse.1 mouse.2 lightWidth lightHeight event.ctrl l fresh s0
  else if event.rightButton then
    { mousePressRight mouse.1 mouse.2 lightWidth lightHeight s0 with need_to_update := true }
  else { s0 with need_to_update := true }

/-! ## Light uniforms -/

/-- The call `m_program.setUniformValue(name, value)`. -/
def setUniformValue (name : UniformName) (value : UniformValue)
    (s : OpenGlWidget) : OpenGlWidget :=
  { s with uniforms := s.uniforms ++ [(name, value)] }

/-- The value of a uniform after a sequence of calls: that of the last call
for its name, `none` when the name was never set. -/
def uniformValue (log : List (UniformName × UniformValue)) (name : UniformName) :
    Option UniformValue :=
  (log.reverse.find? (fun e => decide (e.1 = name))).map (fun e => e.2)

/-- The local `currentLightList` of `apply_light_params` (and of the marker
pass of `update_scene`): the sample list in shared mode, otherwise the lists
of all sprites, one after the other. -/
def shadingLightList (s : OpenGlWidget) : List LightPtr :=
  if s.sample_light_list_used then s.lists s.sampleLightList
  else
    s.processorList.foldl (fun acc pp => acc ++ s.lists (s.procs pp).light_list_ptr) []

/-- The body of the loop of `apply_light_params` for the light at index `i`:
six calls for the fields of `Light[i]`, then the two ambient calls. -/
def applyLightStep (i : ℕ) (light : LightPtr) (s : OpenGlWidget) : OpenGlWidget :=
  let L := s.lights light
  let s1 := setUniformValue (UniformName.lightPos i)
    (UniformValue.vec3 L.lightPosition.x L.lightPosition.y L.lightPosition.z) s
  let s2 := setUniformValue (UniformName.lightColor i)
    (UniformValue.vec3 L.diffuseColor.r L.diffuseColor.g L.diffuseColor.b) s1
  let s3 := setUniformValue (UniformName.specColor i)
    (UniformValue.vec3 L.specularColor.r L.specularColor.g L.specularColor.b) s2
  let s4 := setUniformValue (UniformName.diffIntensity i)
    (UniformValue.float L.diffuseIntensity) s3
  let s5 := setUniformValue (UniformName.specIntensity i)
    (UniformValue.float L.specularIntensity) s4
  let s6 := setUniformValue (UniformName.specScatter i)
    (UniformValue.int L.specularScatter) s5
  let s7 := setUniformValue UniformName.ambientColor
    (UniformValue.vec3 s6.ambientColor.r s6.ambientColor.g s6.ambientColor.b) s6
  setUniformValue UniformName.ambientIntensity (UniformValue.float s7.ambientIntensity) s7

/-- The loop `for (int i = 0; i < n; i++)` of `apply_light_params`, from
index `i` on, over the lights that are left. -/
def applyLightLoop : ℕ → List LightPtr → OpenGlWidget → OpenGlWidget
  | _, [], s => s
  | i, light :: rest, s => applyLightLoop (i + 1) rest (applyLightStep i light s)

/-- `OpenGlWidget::apply_light_params`. -/
def apply_light_params (s : OpenGlWidget) : OpenGlWidget :=
  let currentLightList := shadingLightList s
  let n := currentLightList.length
  if n = 0 then s
  else
    let s1 := setUniformValue UniformName.lightNum (UniformValue.int n) s
    applyLightLoop 0 currentLightList s1

/-! ## Export -/

/-- One round of the loop of `calculate_preview(false)`: `setImage` is given
the sprite's texture, then the frame buffer is created with the size of the
member `m_image`, and `apply_light_params` is called before the draw; the
result is the size of that buffer.  The autosave block (lines 961-984) is
`autosave`. -/
def previewSprite (s : OpenGlWidget) (pp : ProcPtr) : OpenGlWidget × QImage :=
  let p := s.procs pp
  let s1 := setImage p.texture s
  (apply_light_params s1, ⟨s1.m_image.width, s1.m_image.height⟩)

/-- The per-sprite branch of `calculate_preview`: the state after it and the
size of the buffer each sprite was rendered into, in list order. -/
def calculate_preview_sprites (s : OpenGlWidget) : OpenGlWidget × List QImage :=
  s.processorList.foldl
    (fun acc pp =>
      let r := previewSprite acc.1 pp
      (r.1, acc.2 ++ [r.2]))
    (s, [])

/-- The locals `xmin`, `xmax`, `ymin`, `ymax` of `calculate_preview`. -/
structure CropRect where
  xmin : ℤ
  xmax : ℤ
  ymin : ℤ
  ymax : ℤ
deriving DecidableEq

/-- The local `xi` of `calculate_preview`, before the conversion to `int`. -/
def footprintXi (w : ℤ) (p : ImageProcessor) : ℚ :=
  0.5 * (p.position.x + 1) * w - p.texture.width / 2.0 * p.zoom

/-- The local `xf`, before the conversion to `int`. -/
def footprintXf (w : ℤ) (p : ImageProcessor) : ℚ :=
  0.5 * (p.position.x + 1) * w + p.texture.width / 2.0 * p.zoom

/-- The local `yi`, before the conversion to `int`. -/
def footprintYi (h : ℤ) (p : ImageProcessor) : ℚ :=
  0.5 * (-p.position.y + 1) * h - p.texture.height / 2.0 * p.zoom

/-- The local `yf`, before the conversion to `int`. -/
def footprintYf (h : ℤ) (p : ImageProcessor) : ℚ :=
  0.5 * (-p.position.y + 1) * h + p.texture.height / 2.0 * p.zoom

/-- The locals `int xi`, `int xf`, `int yi`, `int yf`. -/
def xi (w : ℤ) (p : ImageProcessor) : ℤ := truncToInt (footprintXi w p)

def xf (w : ℤ) (p : ImageProcessor) : ℤ := truncToInt (footprintXf w p)

def yi (h : ℤ) (p : ImageProcessor) : ℤ := truncToInt (footprintYi h p)

def yf (h : ℤ) (p : ImageProcessor) : ℤ := truncToInt (footprintYf h p)

/-- The update of the crop bounds for one sprite (lines 1008-1044). -/
def cropStep (w h : ℤ) (r : CropRect) (p : ImageProcessor) : CropRect :=
  let r1 :=
    if p.tile_x then { r with xmin := 0, xmax := w - 1 }
    else
      let a := if xi w p < r.xmin then { r with xmin := xi w p } else r
      if xf w p > a.xmax then { a with xmax := xf w p } else a
  if p.tile_y then { r1 with ymin := 0, ymax := h - 1 }
  else
    let a := if yi h p < r1.ymin then { r1 with ymin := yi h p } else r1
    if yf h p > a.ymax then { a with ymax := yf h p } else a

/-- One round of the loop of `calculate_preview(true)`: the crop bounds are
updated, `setImage` is given the sprite's texture, the draw transform is
computed, and `apply_light_params` is called before the draw. -/
def previewFullStep (acc : OpenGlWidget × CropRect × List DrawTransform) (pp : ProcPtr) :
    OpenGlWidget × CropRect × List DrawTransform :=
  let s := acc.1
  let p := s.procs pp
  let r := cropStep s.width s.height acc.2.1 p
  let s1 := setImage p.texture s
  (apply_light_params s1, r, acc.2.2 ++ [spriteTransform s1.sx s1.sy p])

/-- The full-canvas branch of `calculate_preview`: the state after it, the
rectangle `QRect(QPoint(xmin, ymin), QPoint(xmax, ymax))` the rendered image
is cropped to, and the transform uploaded for each sprite. -/
def calculate_preview_full (s : OpenGlWidget) :
    OpenGlWidget × CropRect × List DrawTransform :=
  s.processorList.foldl previewFullStep (s, ⟨s.width, 0, s.height, 0⟩, [])

/-! ## Setters, timer tick and paint -/

/-- `OpenGlWidget::setLight`. -/
def setLight (light : Bool) (s : OpenGlWidget) : OpenGlWidget :=
  { s with m_light := light, need_to_update := true }

/-- `OpenGlWidget::setParallaxHeight`. -/
def setParallaxHeight (height : ℤ) (s : OpenGlWidget) : OpenGlWidget :=
  { s with parallax_height := (height : ℚ) / 1000.0, need_to_update := true }

/-- `OpenGlWidget::setLightColor`. -/
def setLightColor (color : QColor) (s : OpenGlWidget) : OpenGlWidget :=
  { s with
    lights := Function.update s.lights s.currentLight
      { s.lights s.currentLight with diffuseColor := color }
    need_to_update := true }

/-- `OpenGlWidget::setSpecColor`. -/
def setSpecColor (color : QColor) (s : OpenGlWidget) : OpenGlWidget :=
  { s with
    lights := Function.update s.lights s.currentLight
      { s.lights s.currentLight with specularColor := color }
    need_to_update := true }

/-- `OpenGlWidget::setBackgroundColor`. -/
def setBackgroundColor (color : QColor) (s : OpenGlWidget) : OpenGlWidget :=
  { s with backgroundColor := color, need_to_update := true }

/-- `OpenGlWidget::setLightHeight`. -/
def setLightHeight (height : ℚ) (s : OpenGlWidget) : OpenGlWidget :=
  let p0 := (s.lights s.currentLight).lightPosition
  let p1 : QVector3D := { p0 with z := height }
  { s with
    lightPosition := p1
    lights := Function.update s.lights s.currentLight
      { s.lights s.currentLight with lightPosition := p1 }
    need_to_update := true }

/-- `OpenGlWidget::setLightIntensity`. -/
def setLightIntensity (intensity : ℚ) (s : OpenGlWidget) : OpenGlWidget :=
  { s with
    lights := Function.update s.lights s.currentLight
      { s.lights s.currentLight with diffuseIntensity := intensity }
    need_to_update := true }

/-- `OpenGlWidget::setSpecIntensity`. -/
def setSpecIntensity (intensity : ℚ) (s : OpenGlWidget) : OpenGlWidget :=
  { s with
    lights := Function.update s.lights s.currentLight
      { s.lights s.currentLight with specularIntensity := intensity }
    need_to_update := true }

/-- `OpenGlWidget::setSpecScatter`. -/
def setSpecScatter (scatter : ℤ) (s : OpenGlWidget) : OpenGlWidget :=
  { s with
    lights := Function.update s.lights s.currentLight
      { s.lights s.currentLight with specularScatter := scatter }
    need_to_update := true }

/-- `OpenGlWidget::setAmbientColor`. -/
def setAmbientColor (color : QColor) (s : OpenGlWidget) : OpenGlWidget :=
  { s with ambientColor := color, need_to_update := true }

/-- `OpenGlWidget::setAmbientIntensity`. -/
def setAmbientIntensity (intensity : ℚ) (s : OpenGlWidget) : OpenGlWidget :=
  { s with ambientIntensity := intensity, need_to_update := true }

/-- `OpenGlWidget::setPixelated`. -/
def setPixelated (pixelated : Bool) (s : OpenGlWidget) : OpenGlWidget :=
  { s with m_pixelated := pixelated, need_to_update := true }

/-- `OpenGlWidget::setToon`. -/
def setToon (toon : Bool) (s : OpenGlWidget) : OpenGlWidget :=
  { s with m_toon := toon, need_to_update := true }

/-- `OpenGlWidget::setPixelSize`: `pixelSize = size;` and nothing else. -/
def setPixelSize (size : ℤ) (s : OpenGlWidget) : OpenGlWidget :=
  { s with pixelSize := size }

/-- `OpenGlWidget::use_sample_light_list`. -/
def use_sample_light_list (l : Bool) (s : OpenGlWidget) : OpenGlWidget :=
  { s with sample_light_list_used := l, need_to_update := true }

/-- `OpenGlWidget::clear_processor_list`. -/
def clear_processor_list (s : OpenGlWidget) : OpenGlWidget :=
  { set_all_processors_selected false s with processorList := [] }

/-- A call of one of the setters of lines 769-849. -/
inductive Setter where
  | setLight (light : Bool)
  | setParallaxHeight (height : ℤ)
  | setLightColor (color : QColor)
  | setSpecColor (color : QColor)
  | setBackgroundColor (color : QColor)
  | setLightHeight (height : ℚ)
  | setLightIntensity (intensity : ℚ)
  | setSpecIntensity (intensity : ℚ)
  | setSpecScatter (scatter : ℤ)
  | setAmbientColor (color : QColor)
  | setAmbientIntensity (intensity : ℚ)
  | setPixelated (pixelated : Bool)
  | setToon (toon : Bool)
  | setPixelSize (size : ℤ)

/-- The state after the call. -/
def Setter.run (a : Setter) (s : OpenGlWidget) : OpenGlWidget :=
  match a with
  | Setter.setLight b => Laigter.setLight b s
  | Setter.setParallaxHeight h => Laigter.setParallaxHeight h s
  | Setter.setLightColor c => Laigter.setLightColor c s
  | Setter.setSpecColor c => Laigter.setSpecColor c s
  | Setter.setBackgroundColor c => Laigter.setBackgroundColor c s
  | Setter.setLightHeight h => Laigter.setLightHeight h s
  | Setter.setLightIntensity x => Laigter.setLightIntensity x s
  | Setter.setSpecIntensity x => Laigter.setSpecIntensity x s
  | Setter.setSpecScatter n => Laigter.setSpecScatter n s
  | Setter.setAmbientColor c => Laigter.setAmbientColor c s
  | Setter.setAmbientIntensity x => Laigter.setAmbientIntensity x s
  | Setter.setPixelated b => Laigter.setPixelated b s
  | Setter.setToon b => Laigter.setToon b s
  | Setter.setPixelSize n => Laigter.setPixelSize n s

/-- The state after a sequence of setter calls, first call first. -/
def runSetters (as : List Setter) (s : OpenGlWidget) : OpenGlWidget :=
  as.foldl (fun st a => a.run st) s

/-- `OpenGlWidget::force_update`, the slot of the refresh timer: `update()`
is called when `need_to_update` is set. -/
def force_update (s : OpenGlWidget) : OpenGlWidget :=
  if s.need_to_update then { s with signals := s.signals ++ [Signal.update] } else s

/-- The transform of the marker of one light in `update_scene` (lines
314-319). -/
def lightMarkerTransform (s : OpenGlWidget) (light : LightPtr) : QMatrix4x4 :=
  let x : ℚ := (s.laigter.width : ℚ) / s.width
  let y : ℚ := (s.laigter.height : ℚ) / s.height
  (QMatrix4x4.identity.translate (s.lights light).lightPosition.x
    (s.lights light).lightPosition.y).scale (0.3 * x) (0.3 * y)

/-- The transforms of the marker pass of `update_scene`, one for each light
of the local `currentLightList`. -/
def update_scene_markers (s : OpenGlWidget) : List QMatrix4x4 :=
  (shadingLightList s).map (lightMarkerTransform s)

/-- `OpenGlWidget::update_scene`, as far as the widget state goes:
`apply_light_params`, the sprite loop, and the cursor set at the end (blank
with an active brush, the arrow otherwise). -/
def update_scene (s : OpenGlWidget) : OpenGlWidget :=
  let s1 := apply_light_params s
  let s2 := (update_scene_sprites s1).1
  { s2 with arrowCursor := !s2.brushActive }

/-- `OpenGlWidget::calculate_preview`, as far as the widget state goes. -/
def calculate_preview (fullPreview : Bool) (s : OpenGlWidget) : OpenGlWidget :=
  if !fullPreview then (calculate_preview_sprites s).1
  else (calculate_preview_full s).1

/-- `OpenGlWidget::paintGL`: the state after it and the number of times it
has run `update_scene`. -/
def paintGL (s : OpenGlWidget) : OpenGlWidget × ℕ :=
  let r : OpenGlWidget × ℕ :=
    if s.need_to_update then (update_scene { s with need_to_update := false }, 1)
    else (s, 0)
  let s2 :=
    if r.1.export_render then
      calculate_preview r.1.m_fullPreview { r.1 with export_render := false }
    else r.1
  (s2, r.2)

/-! ## Zoom -/

/-- `qRound` (Qt 5): the nearest integer, halves rounded up. -/
def qRound (q : ℚ) : ℤ := ⌊q + 1 / 2⌋

/-- `QPoint / c`: both coordinates divided and rounded with `qRound`. -/
def QPoint.div (p : ℤ × ℤ) (c : ℚ) : ℤ × ℤ :=
  (qRound ((p.1 : ℚ) / c), qRound ((p.2 : ℚ) / c))

/-- `OpenGlWidget::get_all_selected_processors`. -/
def get_all_selected_processors (s : OpenGlWidget) : List ProcPtr :=
  s.processorList.filter (fun pp => (s.procs pp).selected)

/-- The body of the loop of `wheelEvent` for one selected sprite. -/
def wheelStep (degree : ℤ × ℤ) (s : OpenGlWidget) (pp : ProcPtr) : OpenGlWidget :=
  if degree ≠ (0, 0) ∧ degree.2 ≠ 0 then
    let step := QPoint.div degree (|degree.2| : ℤ)
    let p := s.procs pp
    let z : ℚ := if step.2 > 0 then p.zoom * 1.1 * step.2 else -p.zoom * 0.9 * step.2
    { s with procs := Function.update s.procs pp { p with zoom := z } }
  else s

/-- `OpenGlWidget::wheelEvent`, for an event with the given `angleDelta()`. -/
def wheelEvent (angleDelta : ℤ × ℤ) (s : OpenGlWidget) : OpenGlWidget :=
  let degree := QPoint.div angleDelta 8
  let s1 := (get_all_selected_processors s).foldl (wheelStep degree) s
  { s1 with need_to_update := true }

/-- `OpenGlWidget::setZoom`. -/
def setZoom (zoom : ℚ) (s : OpenGlWidget) : OpenGlWidget :=
  { s with
    procs := Function.update s.procs s.processor { s.procs s.processor with zoom := zoom }
    need_to_update := true }

/-- The call `processor->set_position(QVector3D(0, 0, 0))`. -/
def resetPosition (s : OpenGlWidget) : OpenGlWidget :=
  { s with
    procs := Function.update s.procs s.processor
      { s.procs s.processor with position := ⟨0, 0, 0⟩ } }

/-- `OpenGlWidget::resetZoom`. -/
def resetZoom (s : OpenGlWidget) : OpenGlWidget :=
  resetPosition (setZoom 1.0 s)

/-- `OpenGlWidget::fitZoom`. -/
def fitZoom (s : OpenGlWidget) : OpenGlWidget :=
  let x : ℚ := (s.m_image.width : ℚ) / s.width
  let y : ℚ := (s.m_image.height : ℚ) / s.height
  let m : ℚ := max x y
  resetPosition (setZoom (1 / m) s)

/-- A call that changes the zoom. -/
inductive ZoomAction where
  | wheel (angleDelta : ℤ × ℤ)
  | reset
  | fit
  | set (zoom : ℚ)

/-- The state after the call. -/
def ZoomAction.run (a : ZoomAction) (s : OpenGlWidget) : OpenGlWidget :=
  match a with
  | ZoomAction.wheel d => wheelEvent d s
  | ZoomAction.reset => resetZoom s
  | ZoomAction.fit => fitZoom s
  | ZoomAction.set z => setZoom z s

/-- The conditions on a call: `setZoom` is given a positive zoom, and
`fitZoom` is called with an image and a viewport of positive size. -/
def ZoomAction.admissible (a : ZoomAction) (s : OpenGlWidget) : Prop :=
  match a with
  | ZoomAction.wheel _ => True
  | ZoomAction.reset => True
  | ZoomAction.fit =>
    0 < s.m_image.width ∧ 0 < s.m_image.height ∧ 0 < s.width ∧ 0 < s.height
  | ZoomAction.set z => 0 < z

/-- The state after a sequence of calls, first call first. -/
def runZoomActions (as : List ZoomAction) (s : OpenGlWidget) : OpenGlWidget :=
  as.foldl (fun st a => a.run st) s

/-- Every call of the sequence meets its conditions in the state it is made
in. -/
def zoomActionsAdmissible : List ZoomAction → OpenGlWidget → Prop
  | [], _ => True
  | a :: rest, s => a.admissible s ∧ zoomActionsAdmissible rest (a.run s)

/-! ## Moving a light -/

/-- `OpenGlWidget::update_light_position`. -/
def update_light_position (new_pos : QVector3D) (s : OpenGlWidget) : OpenGlWidget :=
  let lightWidth : ℚ := (s.laigter.width : ℚ) / s.width * 0.3
  let lightHeight : ℚ := (s.laigter.height : ℚ) / s.height * 0.3
  let p1 : QVector3D := { s.lightPosition with x := new_pos.x }
  let p2 : QVector3D :=
    if p1.x ≥ 1 - lightWidth / 2 then { p1 with x := 1 - lightWidth / 2 }
    else if p1.x < -1 + lightWidth / 2 then { p1 with x := -1 + lightWidth / 2 }
    else p1
  let p3 : QVector3D := { p2 with y := new_pos.y }
  let p4 : QVector3D :=
    if p3.y > 1 - lightHeight / 2 then { p3 with y := 1 - lightHeight / 2 }
    else if p3.y < -1 + lightHeight / 2 then { p3 with y := -1 + lightHeight / 2 }
    else p3
  { s with
    lightPosition := p4
    lights := Function.update s.lights s.currentLight
      { s.lights s.currentLight with lightPosition := p4 } }

/-- The body of the loop over the sprites in `mouseMoveEvent` (lines
714-728). -/
def mouseMoveStep (mouseX mouseY : ℚ) (newLightPos : QVector3D) (s : OpenGlWidget)
    (pp : ProcPtr) : OpenGlWidget :=
  if s.lightSelected then update_light_position newLightPos s
  else if (s.procs pp).selected then
    let p := s.procs pp
    let p1 :=
      if !p.tile_x then { p with position := { p.position with x := mouseX - p.offset.x } }
      else p
    let p2 :=
      if !p1.tile_y then { p1 with position := { p1.position with y := mouseY - p1.offset.y } }
      else p1
    { s with procs := Function.update s.procs pp p2 }
  else s

/-- `OpenGlWidget::mouseMoveEvent`; `get_height()` of a light is the `z` of
its position. -/
def mouseMoveEvent (event : QMouseEvent) (s : OpenGlWidget) : OpenGlWidget :=
  let mouse := screen_to_device s.width s.height event.localPos
  let newLightPos : QVector3D :=
    ⟨mouse.1, mouse.2, (s.lights s.currentLight).lightPosition.z⟩
  if s.addLight then
    { update_light_position newLightPos s with need_to_update := true }
  else
    let s1 :=
      if event.leftButton || event.midButton then
        let s2 :=
          if s.brushActive && !s.lightSelected && event.leftButton then
            { s with oldPos := tpos s.width s.height (s.procs s.processor) event.localPos }
          else s.processorList.foldl (mouseMoveStep mouse.1 mouse.2 newLightPos) s
        { s2 with need_to_update := true }
      else s
    if s1.brushActive || !s1.arrowCursor then { s1 with need_to_update := true } else s1

/-! ## Division by the viewport size -/

/-- A float division that tells whether the divisor is zero: `none` for a
division by zero.  In the other definitions a float division is the division
of the rationals. -/
def fdiv (a b : ℚ) : Option ℚ :=
  if b = 0 then none else some (a / b)

/-- The divisions of `setImage`, checked: `none` when one of them is a
division by zero, otherwise the state after `setImage`. -/
def setImageChecked (image : QImage) (s : OpenGlWidget) : Option OpenGlWidget :=
  match fdiv image.width s.width, fdiv image.height s.height with
  | some sx, some sy =>
    some { s with sx := sx, sy := sy, pixelsX := image.width, pixelsY := image.height }
  | _, _ => none

/-- `OpenGlWidget::resizeGL`. -/
def resizeGL (w h : ℤ) (s : OpenGlWidget) : OpenGlWidget :=
  { s with
    sx := (s.m_image.width : ℚ) / w
    sy := (s.m_image.height : ℚ) / h
    need_to_update := true }

/-- The divisions of `resizeGL`, checked. -/
def resizeGLChecked (w h : ℤ) (s : OpenGlWidget) : Option OpenGlWidget :=
  match fdiv s.m_image.width w, fdiv s.m_image.height h with
  | some sx, some sy => some { s with sx := sx, sy := sy, need_to_update := true }
  | _, _ => none

/-- The divisions of the marker pass of `update_scene` (lines 314-315),
checked: the locals `x` and `y`. -/
def lightMarkerRatioChecked (s : OpenGlWidget) : Option (ℚ × ℚ) :=
  match fdiv s.laigter.width s.width, fdiv s.laigter.height s.height with
  | some x, some y => some (x, y)
  | _, _ => none

/-- The divisions of the mouse conversion (`mousePressEvent` lines 529-530,
`mouseMoveEvent` lines 670-671), checked. -/
def screenToDeviceChecked (w h : ℤ) (p : ℚ × ℚ) : Option (ℚ × ℚ) :=
  match fdiv p.1 w, fdiv (-p.2) h with
  | some a, some b => some (a * 2 - 1, b * 2 + 1)
  | _, _ => none

/-- A `QString`, as its list of characters. -/
abbrev QString := List Char

/-- `QString::number(i)` for `i >= 0`: the decimal digits. -/
def QString.number (i : ℕ) : QString := Nat.toDigits 10 i

/-- `QString::remove(str)`, from a position where `k` characters of an
occurrence found earlier are still to be dropped: every occurrence of `str`
is removed, scanning from left to right; an empty `str` removes nothing. -/
def QString.removeAux (str : QString) : ℕ → QString → QString
  | _, [] => []
  | k + 1, _ :: cs => QString.removeAux str k cs
  | 0, c :: cs =>
    if str.length ≠ 0 ∧ str.isPrefixOf (c :: cs) = true then
      QString.removeAux str (str.length - 1) cs
    else c :: QString.removeAux str 0 cs

/-- `QString::remove(str)`. -/
def QString.remove (s str : QString) : QString := QString.removeAux str 0 s

/-- `QFileInfo::fileName()`: what follows the last `/`. -/
def QFileInfo.fileName (path : QString) : QString :=
  (path.reverse.takeWhile (fun c => c ≠ '/')).reverse

/-- `QFileInfo::baseName()`: the file name up to its first `.`. -/
def QFileInfo.baseName (path : QString) : QString :=
  (QFileInfo.fileName path).takeWhile (fun c => c ≠ '.')

/-- `QFileInfo::completeSuffix()`: the file name after its first `.`. -/
def QFileInfo.completeSuffix (path : QString) : QString :=
  ((QFileInfo.fileName path).dropWhile (fun c => c ≠ '.')).drop 1

/-- `QFileInfo::absoluteFilePath()`: the path itself when it starts with
`/`, otherwise the path under the current directory `cwd`. -/
def QFileInfo.absoluteFilePath (cwd path : QString) : QString :=
  if path.head? = some '/' then path else cwd ++ "/".data ++ path

/-- The destination of the autosave when `exportBasePath` is empty (lines
965-970), for the sprite name `name`. -/
def autosaveSibling (cwd name : QString) : QString :=
  let suffix0 := QFileInfo.completeSuffix name
  let suffix := if suffix0 = [] then "png".data else suffix0
  (QFileInfo.absoluteFilePath cwd name).remove (".".data ++ suffix) ++ "_v.".data ++ suffix

/-- The first name tried in an export directory (lines 976-977). -/
def autosaveFirst (exportBasePath name : QString) : QString :=
  exportBasePath ++ "/".data ++ QFileInfo.baseName name ++ "_v.".data ++
    QFileInfo.completeSuffix name

/-- The name tried with the counter `i` (lines 980-981). -/
def autosaveNumbered (exportBasePath name : QString) (i : ℕ) : QString :=
  exportBasePath ++ "/".data ++ QFileInfo.baseName name ++ "(".data ++ QString.number i ++
    ")".data ++ "_v.".data ++ QFileInfo.completeSuffix name

/-- The loop `while (QFileInfo::exists(aux)) aux = ... ++i ...` (lines
978-981) with the counter at `i` and the name at `aux`, run for at most
`fuel` tests of `QFileInfo::exists`; `none` when the fuel runs out.
`fileExists` is `QFileInfo::exists`. -/
def autosaveSearch (fileExists : QString → Bool) (exportBasePath name : QString) :
    ℕ → ℕ → QString → Option QString
  | 0, _, _ => none
  | fuel + 1, i, aux =>
    if fileExists aux then
      autosaveSearch fileExists exportBasePath name fuel (i + 1)
        (autosaveNumbered exportBasePath name (i + 1))
    else some aux

/-- The destination of the autosave in the export directory `exportBasePath`
(lines 974-982): the search starts with `i = 1` at the first name. -/
def autosaveInDir (fileExists : QString → Bool) (exportBasePath name : QString)
    (fuel : ℕ) : Option QString :=
  autosaveSearch fileExists exportBasePath name fuel 1 (autosaveFirst exportBasePath name)

/-- The path computed in the block `if (m_autosave)` (lines 961-982), which
`renderedPreview.save(aux)` then writes. -/
def autosave (fileExists : QString → Bool) (exportBasePath cwd name : QString)
    (fuel : ℕ) : Option QString :=
  if exportBasePath = [] then some (autosaveSibling cwd name)
  else autosaveInDir fileExists exportBasePath name fuel

/-- The sequence of names of the export directory: `base_v.ext` for `k = 1`,
`base(k)_v.ext` for the other `k`. -/
def autosaveCandidate (exportBasePath name : QString) (k : ℕ) : QString :=
  if k = 1 then autosaveFirst exportBasePath name else autosaveNumbered exportBasePath name k

/-! ## Example states -/

/-- The light the constructor creates: position (0.7, 0.7, 0.3), colour
(0, 1, 0.7), scatter 32, intensities 0.6. -/
def startLight : LightSource :=
  { lightPosition := ⟨0.7, 0.7, 0.3⟩
    diffuseColor := ⟨0, 1, 0.7⟩
    specularColor := ⟨0, 1, 0.7⟩
    diffuseIntensity := 0.6
    specularIntensity := 0.6
    specularScatter := 32 }

/-- A second light, at (-0.5, 0.2, 0.3). -/
def secondLight : LightSource :=
  { startLight with lightPosition := ⟨-0.5, 0.2, 0.3⟩, diffuseIntensity := 0.9 }

/-- A sprite of 64 x 32 pixels at the centre, zoom 1, not tiled. -/
def exampleSprite : ImageProcessor :=
  { position := ⟨0, 0, 0⟩
    offset := ⟨0, 0, 0⟩
    zoom := 1
    tile_x := false
    tile_y := false
    is_parallax := false
    selected := false
    texture := ⟨64, 32⟩
    frameDiffuse := some ⟨64, 32⟩
    light_list_ptr := 0
    name := "sprite.png" }

/-- A widget of 800 x 600 pixels in shared mode.  Light 0 is the
constructor's light, light 1 is `secondLight`; list 0 (the current per-sprite
list) is `[0]`, list 1 (the sample list) is `[0, 1]`; light 0 is selected.
The ambient, background, parallax and pixel settings are the constructor's;
no uniform has been set yet. -/
def exampleWidget : OpenGlWidget :=
  { lights := fun a => if a = 1 then secondLight else startLight
    live := fun a => decide (a < 2)
    lists := fun q => if q = 0 then [0] else if q = 1 then [0, 1] else []
    procs := fun _ => exampleSprite
    processorList := [0]
    processor := 0
    sampleLightList := 1
    currentLightList := 0
    currentLight := 0
    lightPosition := ⟨0.7, 0.7, 0.3⟩
    sample_light_list_used := true
    addLight := false
    lightSelected := false
    m_light := true
    need_to_update := false
    export_render := false
    width := 800
    height := 600
    laigter := ⟨64, 64⟩
    m_image := ⟨64, 32⟩
    sx := 64 / 800
    sy := 32 / 600
    pixelsX := 64
    pixelsY := 32
    oldPos := (0, 0)
    brushActive := false
    signals := []
    ambientColor := ⟨1, 1, 1⟩
    ambientIntensity := 0.8
    backgroundColor := ⟨0.2, 0.2, 0.3⟩
    parallax_height := 0.03
    m_pixelated := false
    m_toon := false
    pixelSize := 3
    m_fullPreview := false
    arrowCursor := true
    uniforms := [] }

/-- The example widget in per-sprite mode: the active list is `[0]`. -/
def exampleWidgetPerSprite : OpenGlWidget :=
  { exampleWidget with sample_light_list_used := false }

/-- The example widget in add mode. -/
def addModeWidget : OpenGlWidget :=
  { exampleWidget with addLight := true }

/-- A left click at the centre of the 800 x 600 viewport, device point
(0, 0). -/
def clickCentre : QMouseEvent :=
  { localPos := (400, 300)
    leftButton := true
    midButton := false
    rightButton := false
    ctrl := false }

/-- A left click at pixel (200, 240), device point (-0.5, 0.2), where
`secondLight` stands. -/
def clickSecondLight : QMouseEvent :=
  { clickCentre with localPos := (200, 240) }

/-- A sprite that is not tiled, panned to (0.25, -0.5), zoom 2. -/
def pannedSprite : ImageProcessor :=
  { exampleSprite with position := ⟨0.25, -0.5, 0⟩, zoom := 2 }

/-- A sprite of 8 x 8 pixels whose diffuse frame is its texture. -/
def smallSprite : ImageProcessor :=
  { exampleSprite with texture := ⟨8, 8⟩, frameDiffuse := some ⟨8, 8⟩ }

/-- A sprite of 16 x 4 pixels whose diffuse frame is its texture. -/
def wideSprite : ImageProcessor :=
  { exampleSprite with texture := ⟨16, 4⟩, frameDiffuse := some ⟨16, 4⟩ }

/-- The example widget with two sprites of different sizes: sprite 0 is
`smallSprite`, sprite 1 is `wideSprite`. -/
def twoSpriteWidget : OpenGlWidget :=
  { exampleWidget with
    procs := fun pp => if pp = 0 then smallSprite else wideSprite
    processorList := [0, 1] }

/-- A sprite of 10 x 10 pixels panned to x = 3, beyond the right edge of the
viewport. -/
def offScreenSprite : ImageProcessor :=
  { exampleSprite with position := ⟨3, 0, 0⟩, texture := ⟨10, 10⟩ }

/-- A widget of 100 x 100 pixels whose only sprite is `offScreenSprite`. -/
def offScreenWidget : OpenGlWidget :=
  { exampleWidget with
    procs := fun _ => offScreenSprite
    processorList := [0]
    width := 100
    height := 100 }

/-- A sprite of 10 x 10 pixels centred on the left edge of the viewport
(pan x = -1), not tiled. -/
def leftEdgeSprite : ImageProcessor :=
  { exampleSprite with position := ⟨-1, 0, 0⟩, texture := ⟨10, 10⟩ }

/-- A sprite of 10 x 10 pixels at the centre, tiled along x. -/
def tiledXSprite : ImageProcessor :=
  { exampleSprite with texture := ⟨10, 10⟩, tile_x := true }

/-- A widget of 100 x 100 pixels with the sprites `tiledXSprite` (sprite 0)
and `leftEdgeSprite` (sprite 1), drawn in this order. -/
def tileOrderWidget : OpenGlWidget :=
  { exampleWidget with
    procs := fun pp => if pp = 0 then tiledXSprite else leftEdgeSprite
    processorList := [0, 1]
    width := 100
    height := 100 }

/-- A state with stale uniforms: after `apply_light_params` with the two
lights of the sample list, the sprite list is cleared, the widget is put in
per-sprite mode and the ambient intensity is set to 0.5. -/
def staleUniformWidget : OpenGlWidget :=
  setAmbientIntensity 0.5
    (use_sample_light_list false (clear_processor_list (apply_light_params exampleWidget)))

/-- The example widget with a viewport of width 0 and the dirty flag set. -/
def zeroWidthWidget : OpenGlWidget :=
  { exampleWidget with width := 0, need_to_update := true }

/-- The example widget with its sprite selected. -/
def selectedSpriteWidget : OpenGlWidget :=
  { exampleWidget with procs := fun _ => { exampleSprite with selected := true } }

/-- A light at (-0.5, 0.2) with height 0.8. -/
def tallLight : LightSource :=
  { startLight with lightPosition := ⟨-0.5, 0.2, 0.8⟩ }

/-- The example widget with `tallLight` as light 1; light 0, of height 0.3,
is selected. -/
def tallLightWidget : OpenGlWidget :=
  { exampleWidget with lights := fun a => if a = 1 then tallLight else startLight }

/-- The state after a left click at the centre of `tallLightWidget` (it hits
no light) followed by `set_add_light(true)`: the new light 2, a copy of
light 0, is selected. -/
def addAfterMissWidget : OpenGlWidget :=
  set_add_light true 2 startLight (mousePressEvent clickCentre 3 startLight tallLightWidget)

/-- A mouse move to pixel (400, 300) with no button pressed. -/
def moveCentre : QMouseEvent :=
  { clickCentre with leftButton := false }

/-- A sprite tiled along x whose pan is 1.25 in x, as a sprite dragged to
the right before tiling was switched on. -/
def pannedTiledSprite : ImageProcessor :=
  { exampleSprite with position := ⟨1.25, 0, 0⟩, tile_x := true }

/-- The example widget with the panned tiled sprite as its only sprite. -/
def pannedTiledWidget : OpenGlWidget :=
  { exampleWidget with procs := fun _ => pannedTiledSprite }

/-- The example widget with a sprite tiled along x at pan 0 as its only
sprite. -/
def centredTiledWidget : OpenGlWidget :=
  { exampleWidget with procs := fun _ => { exampleSprite with tile_x := true } }

/-- A left click at pixel (40, 300), device point (-0.9, 0). -/
def clickLeftEdge : QMouseEvent :=
  { clickCentre with localPos := (40, 300) }

/-- A left click at pixel (402, 300), device point (0.005, 0). -/
def clickNearCentre : QMouseEvent :=
  { clickCentre with localPos := (402, 300) }

/-- The example widget with the panned sprite as its only sprite. -/
def pannedWidget : OpenGlWidget :=
  { exampleWidget with procs := fun _ => pannedSprite }

theorem erase_ne_nil_of_length_gt_one (L : List LightPtr) (l : LightPtr)
    (h : L.length > 1) : L.erase l ≠ [] := by
  intro hnil
  have hlen := List.length_erase l L
  rw [hnil] at hlen
  simp only [List.length_nil] at hlen
  split at hlen <;> omega

theorem remove_light_of_le (s : OpenGlWidget) (l : LightPtr)
    (h : ¬ (activeList s).length > 1) : remove_light l s = s := by
  unfold activeList activeListPtr at h
  unfold remove_light
  simp only []
  rw [dif_neg h]

theorem remove_light_of_gt (s : OpenGlWidget) (l : LightPtr)
    (h : (activeList s).length > 1) :
    remove_light l s =
        { (if s.currentLight = l then
            select_light (((activeList s).erase l).getLast
                (erase_ne_nil_of_length_gt_one _ l h))
              { s with lists := Function.update s.lists (activeListPtr s) ((activeList s).erase l) }
           else
              { s with lists := Function.update s.lists (activeListPtr s) ((activeList s).erase l) }) with
          live := Function.update s.live l false
          need_to_update := true } := by
  have h' := h
  unfold activeList activeListPtr at h'
  unfold remove_light activeList activeListPtr
  simp only []
  rw [dif_pos h']
  by_cases hc : s.currentLight = l
  · simp only [if_pos hc, select_light]
  · simp only [if_neg hc]

theorem activeListPtr_remove_light (s : OpenGlWidget) (l : LightPtr) :
    activeListPtr (remove_light l s) = activeListPtr s := by
  by_cases h : (activeList s).length > 1
  · rw [remove_light_of_gt s l h]
    by_cases hc : s.currentLight = l
    · simp only [if_pos hc]; rfl
    · simp only [if_neg hc]; rfl
  · rw [remove_light_of_le s l h]

theorem activeList_remove_light (s : OpenGlWidget) (l : LightPtr)
    (h : (activeList s).length > 1) :
    activeList (remove_light l s) = (activeList s).erase l := by
  unfold activeList
  rw [activeListPtr_remove_light]
  rw [remove_light_of_gt s l h]
  by_cases hc : s.currentLight = l
  · simp [hc, select_light, activeList]
  · simp [hc, activeList]

theorem currentLight_remove_light_ne (s : OpenGlWidget) (l : LightPtr)
    (hc : s.currentLight ≠ l) : (remove_light l s).currentLight = s.currentLight := by
  by_cases h : (activeList s).length > 1
  · rw [remove_light_of_gt s l h]
    simp only [if_neg hc]
  · rw [remove_light_of_le s l h]

theorem currentLight_remove_light_eq (s : OpenGlWidget) (l : LightPtr)
    (h : (activeList s).length > 1) (hc : s.currentLight = l) :
    (remove_light l s).currentLight =
      ((activeList s).erase l).getLast (erase_ne_nil_of_length_gt_one _ l h) := by
  rw [remove_light_of_gt s l h]
  simp only [if_pos hc, select_light]

theorem currentLight_mem_remove_light (s : OpenGlWidget) (l : LightPtr)
    (hm : s.currentLight ∈ activeList s) :
    (remove_light l s).currentLight ∈ activeList (remove_light l s) := by
  by_cases h : (activeList s).length > 1
  · rw [activeList_remove_light s l h]
    by_cases hc : s.currentLight = l
    · rw [currentLight_remove_light_eq s l h hc]
      exact List.getLast_mem _
    · rw [currentLight_remove_light_ne s l hc]
      exact (List.mem_erase_of_ne hc).mpr hm
  · rw [remove_light_of_le s l h]
    exact hm

theorem set_add_light_true (s : OpenGlWidget) (l : LightPtr) (fresh : LightSource) :
    set_add_light true l fresh s =
      { s with
        lights := Function.update (Function.update s.lights l fresh) l
          (fresh.copy_settings (Function.update s.lights l fresh s.currentLight))
        live := Function.update s.live l true
        currentLight := l
        signals := s.signals ++ [Signal.selectedLightChanged l]
        lists := Function.update s.lists (activeListPtr s) (activeList s ++ [l])
        need_to_update := true
        addLight := true } := by
  unfold set_add_light activeList activeListPtr
  by_cases hm : s.sample_light_list_used = true
  · simp [select_light, hm]
  · simp [select_light, hm]

theorem set_add_light_false (s : OpenGlWidget) (l : LightPtr) (fresh : LightSource) :
    set_add_light false l fresh s =
      { (if s.addLight = true then remove_light s.currentLight s else s) with
        addLight := false } := by
  unfold set_add_light
  simp

theorem currentLight_mem_set_add_light (add : Bool) (s : OpenGlWidget) (l : LightPtr)
    (fresh : LightSource) (hm : s.currentLight ∈ activeList s) :
    (set_add_light add l fresh s).currentLight ∈
      activeList (set_add_light add l fresh s) := by
  cases add
  · rw [set_add_light_false]
    by_cases ha : s.addLight = true
    · simp only [if_pos ha]
      exact currentLight_mem_remove_light s s.currentLight hm
    · simp only [if_neg ha]
      exact hm
  · rw [set_add_light_true]
    simp [activeList, activeListPtr]

/-- C1: when the active light list has exactly one member, `remove_light`
changes nothing at all: the state after the call is the state before it, so
the list still has its one member, the selection is the same and every light
that was allocated still is. -/
theorem remove_light_single_noop (s : OpenGlWidget) (l : LightPtr)
    (h : (activeList s).length = 1) :
    remove_light l s = s ∧
      activeList (remove_light l s) = activeList s ∧
      (activeList (remove_light l s)).length = 1 ∧
      (remove_light l s).currentLight = s.currentLight ∧
      (remove_light l s).live = s.live ∧
      (remove_light l s).lights = s.lights := by
  have hle : ¬ (activeList s).length > 1 := by omega
  rw [remove_light_of_le s l hle]
  exact ⟨rfl, rfl, h, rfl, rfl, rfl⟩

theorem remove_light_single_noop_witness :
    (activeList exampleWidgetPerSprite).length = 1 ∧
      remove_light 0 exampleWidgetPerSprite = exampleWidgetPerSprite :=
  ⟨by decide, (remove_light_single_noop exampleWidgetPerSprite 0 (by decide)).1⟩

/-- C2: if the selected light is a member of the active light list, it still
is after any finite sequence of add-light, cancel-add and remove-light calls
(for every light given to `remove_light` and every answer of the
allocator). -/
theorem currentLight_mem_after_actions (as : List LightAction) (s : OpenGlWidget)
    (h : s.currentLight ∈ activeList s) :
    (runLightActions as s).currentLight ∈ activeList (runLightActions as s) := by
  induction as generalizing s with
  | nil => exact h
  | cons a rest ih =>
    have hstep : (a.run s).currentLight ∈ activeList (a.run s) := by
      cases a with
      | add l fresh => exact currentLight_mem_set_add_light true s l fresh h
      | cancel => exact currentLight_mem_set_add_light false s 0 (s.lights 0) h
      | remove l => exact currentLight_mem_remove_light s l h
    exact ih (a.run s) hstep

theorem currentLight_mem_after_actions_witness :
    exampleWidget.currentLight ∈ activeList exampleWidget ∧
      (runLightActions
          [LightAction.add 2 startLight, LightAction.remove 0, LightAction.cancel,
            LightAction.add 3 startLight, LightAction.remove 3]
          exampleWidget).currentLight ∈
        activeList (runLightActions
          [LightAction.add 2 startLight, LightAction.remove 0, LightAction.cancel,
            LightAction.add 3 startLight, LightAction.remove 3]
          exampleWidget) :=
  ⟨by decide, currentLight_mem_after_actions _ exampleWidget (by decide)⟩

/-- C3: when the active light list has at least two members and `l` is one
of them, `remove_light l` leaves the list with the first occurrence of `l`
taken out: the old list is a reordering of `l` followed by the new list, the
new list is one shorter and keeps the order of what remains; if `l` was the
selected light the new selection is the last element of the new list,
otherwise the selection is unchanged; and `need_to_update` is set. -/
theorem remove_light_member (s : OpenGlWidget) (l : LightPtr)
    (h2 : 2 ≤ (activeList s).length) (hl : l ∈ activeList s) :
    activeList (remove_light l s) = (activeList s).erase l ∧
      (activeList s).Perm (l :: activeList (remove_light l s)) ∧
      (activeList (remove_light l s)).length + 1 = (activeList s).length ∧
      (activeList (remove_light l s)).Sublist (activeList s) ∧
      (s.currentLight = l →
        (activeList (remove_light l s)).getLast? = some (remove_light l s).currentLight) ∧
      (s.currentLight ≠ l → (remove_light l s).currentLight = s.currentLight) ∧
      (remove_light l s).need_to_update = true := by
  have hgt : (activeList s).length > 1 := by omega
  have hlist := activeList_remove_light s l hgt
  refine ⟨hlist, ?_, ?_, ?_, ?_, ?_, ?_⟩
  · rw [hlist]
    exact List.perm_cons_erase hl
  · rw [hlist, List.length_erase_of_mem hl]
    omega
  · rw [hlist]
    exact List.erase_sublist l _
  · intro hc
    rw [hlist, currentLight_remove_light_eq s l hgt hc]
    exact List.getLast?_eq_getLast _ _
  · intro hc
    exact currentLight_remove_light_ne s l hc
  · rw [remove_light_of_gt s l hgt]

theorem remove_light_member_witness :
    2 ≤ (activeList exampleWidget).length ∧ 0 ∈ activeList exampleWidget ∧
      activeList (remove_light 0 exampleWidget) = [1] ∧
      (remove_light 0 exampleWidget).currentLight = 1 :=
  ⟨by decide, by decide,
    (remove_light_member exampleWidget 0 (by decide) (by decide)).1.trans (by decide),
    by decide⟩

/-- C4: `set_add_light(true)` appends the new light `l` at the end of the
active list (the sample list in shared mode, the current per-sprite list
otherwise) and changes no other list; the position, colours, intensities and
scatter of the new light are those of the light that was selected before the
call; no other light is changed; the new light is selected, add mode is on
and `need_to_update` is set.  The allocator returns an address that was not
allocated, and the selected light is allocated. -/
theorem set_add_light_appends (s : OpenGlWidget) (l : LightPtr) (fresh : LightSource)
    (hfresh : s.live l = false) (hcur : s.live s.currentLight = true) :
    activeList (set_add_light true l fresh s) = activeList s ++ [l] ∧
      (set_add_light true l fresh s).lists
          (if s.sample_light_list_used then s.sampleLightList else s.currentLightList) =
        s.lists (if s.sample_light_list_used then s.sampleLightList else s.currentLightList)
          ++ [l] ∧
      (∀ q, q ≠ activeListPtr s → (set_add_light true l fresh s).lists q = s.lists q) ∧
      ((set_add_light true l fresh s).lights l).lightPosition =
        (s.lights s.currentLight).lightPosition ∧
      ((set_add_light true l fresh s).lights l).diffuseColor =
        (s.lights s.currentLight).diffuseColor ∧
      ((set_add_light true l fresh s).lights l).specularColor =
        (s.lights s.currentLight).specularColor ∧
      ((set_add_light true l fresh s).lights l).diffuseIntensity =
        (s.lights s.currentLight).diffuseIntensity ∧
      ((set_add_light true l fresh s).lights l).specularIntensity =
        (s.lights s.currentLight).specularIntensity ∧
      ((set_add_light true l fresh s).lights l).specularScatter =
        (s.lights s.currentLight).specularScatter ∧
      (∀ q, q ≠ l → (set_add_light true l fresh s).lights q = s.lights q) ∧
      (set_add_light true l fresh s).currentLight = l ∧
      (set_add_light true l fresh s).live l = true ∧
      (set_add_light true l fresh s).addLight = true ∧
      (set_add_light true l fresh s).need_to_update = true := by
  have hne : s.currentLight ≠ l := by
    intro he
    rw [he, hfresh] at hcur
    exact Bool.false_ne_true hcur
  rw [set_add_light_true]
  have hrd : Function.update s.lights l fresh s.currentLight = s.lights s.currentLight :=
    Function.update_noteq hne _ _
  refine ⟨?_, ?_, ?_, ?_, ?_, ?_, ?_, ?_, ?_, ?_, rfl, ?_, rfl, rfl⟩
  · simp [activeList, activeListPtr]
  · simp [activeList, activeListPtr]
  · intro q hq
    simp [Function.update_noteq hq]
  all_goals simp [hrd, LightSource.copy_settings]
  · intro q hq
    simp [Function.update_noteq hq]

theorem set_add_light_appends_witness :
    exampleWidget.live 2 = false ∧ exampleWidget.live exampleWidget.currentLight = true ∧
      activeList (set_add_light true 2 secondLight exampleWidget) = [0, 1, 2] ∧
      (set_add_light true 2 secondLight exampleWidget).lights 2 = startLight :=
  ⟨by decide, by decide,
    (set_add_light_appends exampleWidget 2 secondLight (by decide) (by decide)).1.trans
      (by decide),
    by rfl⟩

/-! ## Coordinate conversions and draw transform -/

/-- C5: over the rationals, for a viewport with `w > 0` and `h > 0`, the
mouse conversion `screen_to_device` and the crop conversion
`device_to_screen` are inverse to each other, in both orders. -/
theorem screen_device_inverse (w h : ℤ) (hw : 0 < w) (hh : 0 < h) :
    (∀ p : ℚ × ℚ, device_to_screen w h (screen_to_device w h p) = p) ∧
      (∀ d : ℚ × ℚ, screen_to_device w h (device_to_screen w h d) = d) := by
  have hw' : (w : ℚ) ≠ 0 := by exact_mod_cast hw.ne'
  have hh' : (h : ℚ) ≠ 0 := by exact_mod_cast hh.ne'
  constructor
  · intro p
    apply Prod.ext
    · simp only [device_to_screen, screen_to_device]
      field_simp
      ring
    · simp only [device_to_screen, screen_to_device]
      field_simp
      ring
  · intro d
    apply Prod.ext
    · simp only [device_to_screen, screen_to_device]
      field_simp
      ring
    · simp only [device_to_screen, screen_to_device]
      field_simp
      ring

theorem screen_device_inverse_witness :
    (0 : ℤ) < 800 ∧ (0 : ℤ) < 600 ∧
      device_to_screen 800 600 (screen_to_device 800 600 (200, 150)) = (200, 150) ∧
      screen_to_device 800 600 (device_to_screen 800 600 (1 / 2, -1 / 4)) = (1 / 2, -1 / 4) :=
  ⟨by decide, by decide,
    (screen_device_inverse 800 600 (by decide) (by decide)).1 (200, 150),
    (screen_device_inverse 800 600 (by decide) (by decide)).2 (1 / 2, -1 / 4)⟩

/-- The crop footprint of `calculate_preview` is centred on the image of
the sprite's pan position under `device_to_screen`. -/
theorem footprint_centre (w h : ℤ) (p : ImageProcessor) :
    footprintXi w p =
        (device_to_screen w h (p.position.x, p.position.y)).1 - p.texture.width / 2.0 * p.zoom ∧
      footprintXf w p =
        (device_to_screen w h (p.position.x, p.position.y)).1 + p.texture.width / 2.0 * p.zoom ∧
      footprintYi h p =
        (device_to_screen w h (p.position.x, p.position.y)).2 - p.texture.height / 2.0 * p.zoom ∧
      footprintYf h p =
        (device_to_screen w h (p.position.x, p.position.y)).2 + p.texture.height / 2.0 * p.zoom :=
  ⟨rfl, rfl, rfl, rfl⟩

theorem set_processor_selected_fold (b : Bool) (L : List ProcPtr) (s : OpenGlWidget) :
    ∃ sig : List Signal, sig.filter Signal.isLightChange = s.signals.filter Signal.isLightChange ∧
      L.foldl (fun st pp => set_processor_selected pp b st) s = { s with signals := sig } := by
  induction L generalizing s with
  | nil => exact ⟨s.signals, rfl, rfl⟩
  | cons pp rest ih =>
    obtain ⟨sig, h1, h2⟩ := ih (set_processor_selected pp b s)
    refine ⟨sig, ?_, ?_⟩
    · rw [h1]
      simp [set_processor_selected, Signal.isLightChange]
    · rw [List.foldl_cons, h2]
      rfl

theorem set_all_processors_selected_eq (b : Bool) (s : OpenGlWidget) :
    ∃ sig : List Signal, sig.filter Signal.isLightChange = s.signals.filter Signal.isLightChange ∧
      set_all_processors_selected b s = { s with signals := sig } :=
  set_processor_selected_fold b s.processorList s

theorem pickSpriteStep_keeps (mouseX mouseY : ℚ) (acc : OpenGlWidget × Bool) (pp : ProcPtr) :
    (pickSpriteStep mouseX mouseY acc pp).1.currentLight = acc.1.currentLight ∧
      (pickSpriteStep mouseX mouseY acc pp).1.lightSelected = acc.1.lightSelected ∧
      (pickSpriteStep mouseX mouseY acc pp).1.signals.filter Signal.isLightChange =
        acc.1.signals.filter Signal.isLightChange := by
  unfold pickSpriteStep
  simp only []
  split_ifs <;> simp [set_processor_selected, Signal.isLightChange]

theorem pickSprite_fold_keeps (mouseX mouseY : ℚ) (L : List ProcPtr)
    (acc : OpenGlWidget × Bool) :
    (L.foldl (pickSpriteStep mouseX mouseY) acc).1.currentLight = acc.1.currentLight ∧
      (L.foldl (pickSpriteStep mouseX mouseY) acc).1.lightSelected = acc.1.lightSelected ∧
      (L.foldl (pickSpriteStep mouseX mouseY) acc).1.signals.filter Signal.isLightChange =
        acc.1.signals.filter Signal.isLightChange := by
  induction L generalizing acc with
  | nil => exact ⟨rfl, rfl, rfl⟩
  | cons pp rest ih =>
    rw [List.foldl_cons]
    obtain ⟨h1, h2, h3⟩ := ih (pickSpriteStep mouseX mouseY acc pp)
    obtain ⟨k1, k2, k3⟩ := pickSpriteStep_keeps mouseX mouseY acc pp
    exact ⟨h1.trans k1, h2.trans k2, h3.trans k3⟩

theorem selectLoop_spec (mouseX mouseY lightWidth lightHeight : ℚ) (L : List LightPtr)
    (s : OpenGlWidget) (hm : s.m_light = true) :
    (∀ light,
      L.find? (fun q => decide (|mouseX - (s.lights q).lightPosition.x| < lightWidth ∧
          |mouseY - (s.lights q).lightPosition.y| < lightHeight)) = some light →
        (selectLoop mouseX mouseY lightWidth lightHeight L s).currentLight = light ∧
        (selectLoop mouseX mouseY lightWidth lightHeight L s).lightSelected = true ∧
        (selectLoop mouseX mouseY lightWidth lightHeight L s).signals =
          s.signals ++ [Signal.selectedLightChanged light]) ∧
    (L.find? (fun q => decide (|mouseX - (s.lights q).lightPosition.x| < lightWidth ∧
          |mouseY - (s.lights q).lightPosition.y| < lightHeight)) = none →
        (selectLoop mouseX mouseY lightWidth lightHeight L s).currentLight = s.currentLight ∧
        (selectLoop mouseX mouseY lightWidth lightHeight L s).lightSelected = s.lightSelected ∧
        (selectLoop mouseX mouseY lightWidth lightHeight L s).signals = s.signals) ∧
    (selectLoop mouseX mouseY lightWidth lightHeight L s).processorList = s.processorList := by
  induction L generalizing s with
  | nil =>
    refine ⟨?_, ?_, rfl⟩
    · intro light h
      simp at h
    · intro _
      exact ⟨rfl, rfl, rfl⟩
  | cons a rest ih =>
    by_cases hit : |mouseX - (s.lights a).lightPosition.x| < lightWidth ∧
        |mouseY - (s.lights a).lightPosition.y| < lightHeight
    · have hh : lightHit mouseX mouseY lightWidth lightHeight
          { s with lightPosition := (s.lights a).lightPosition } := ⟨hit.1, hit.2, hm⟩
      refine ⟨?_, ?_, ?_⟩
      · intro light h
        rw [List.find?_cons_of_pos _ (by simpa using hit)] at h
        injection h with h
        subst h
        simp [selectLoop, hh, select_light]
      · intro h
        rw [List.find?_cons_of_pos _ (by simpa using hit)] at h
        cases h
      · simp only [selectLoop, if_pos hh, select_light]
    · have hh : ¬ lightHit mouseX mouseY lightWidth lightHeight
          { s with lightPosition := (s.lights a).lightPosition } := fun c => hit ⟨c.1, c.2.1⟩
      obtain ⟨i1, i2, i3⟩ := ih { s with lightPosition := (s.lights a).lightPosition } hm
      refine ⟨?_, ?_, ?_⟩
      · intro light h
        rw [List.find?_cons_of_neg _ (by simpa using hit)] at h
        simp only [selectLoop, if_neg hh]
        exact i1 light h
      · intro h
        rw [List.find?_cons_of_neg _ (by simpa using hit)] at h
        simp only [selectLoop, if_neg hh]
        exact i2 h
      · simp only [selectLoop, if_neg hh]
        exact i3

theorem pickSprites_keeps (mouseX mouseY : ℚ) (r : OpenGlWidget) :
    (pickSprites mouseX mouseY r).currentLight = r.currentLight ∧
      (pickSprites mouseX mouseY r).lightSelected = r.lightSelected ∧
      (pickSprites mouseX mouseY r).signals.filter Signal.isLightChange =
        r.signals.filter Signal.isLightChange := by
  unfold pickSprites
  by_cases hls : (!r.lightSelected) = true
  · rw [if_pos hls]
    obtain ⟨k1, k2, k3⟩ := pickSprite_fold_keeps mouseX mouseY r.processorList.reverse
      (set_enabled_light_controls false r, false)
    refine ⟨k1, k2, k3.trans ?_⟩
    simp [set_enabled_light_controls, Signal.isLightChange]
  · rw [if_neg hls]
    simp [set_enabled_light_controls, Signal.isLightChange]

theorem mousePressLeft_shared (mouseX mouseY lightWidth lightHeight : ℚ) (ctrl : Bool)
    (l : LightPtr) (fresh : LightSource) (s : OpenGlWidget)
    (hadd : s.addLight = false) (hshared : s.sample_light_list_used = true)
    (hshown : s.m_light = true) :
    (∀ light,
      (s.lists s.sampleLightList).find?
          (fun q => decide (|mouseX - (s.lights q).lightPosition.x| < lightWidth ∧
            |mouseY - (s.lights q).lightPosition.y| < lightHeight)) = some light →
        (mousePressLeft mouseX mouseY lightWidth lightHeight ctrl l fresh s).currentLight = light ∧
        (mousePressLeft mouseX mouseY lightWidth lightHeight ctrl l fresh s).lightSelected = true ∧
        Signal.selectedLightChanged light ∈
          (mousePressLeft mouseX mouseY lightWidth lightHeight ctrl l fresh s).signals) ∧
    ((s.lists s.sampleLightList).find?
          (fun q => decide (|mouseX - (s.lights q).lightPosition.x| < lightWidth ∧
            |mouseY - (s.lights q).lightPosition.y| < lightHeight)) = none →
        (mousePressLeft mouseX mouseY lightWidth lightHeight ctrl l fresh s).currentLight =
          s.currentLight ∧
        (mousePressLeft mouseX mouseY lightWidth lightHeight ctrl l fresh s).lightSelected =
          s.lightSelected ∧
        (mousePressLeft mouseX mouseY lightWidth lightHeight ctrl l fresh s).signals.filter
            Signal.isLightChange = s.signals.filter Signal.isLightChange) := by
  -- the state the hit-test loop starts from differs from `s` in `signals` only
  obtain ⟨sig, hsig, hs1⟩ : ∃ sig : List Signal,
      sig.filter Signal.isLightChange = s.signals.filter Signal.isLightChange ∧
      (if (!ctrl) = true then set_all_processors_selected false s else s) =
        { s with signals := sig } := by
    by_cases hc : (!ctrl) = true
    · rw [if_pos hc]
      exact set_all_processors_selected_eq false s
    · rw [if_neg hc]
      exact ⟨s.signals, rfl, rfl⟩
  have hunf : mousePressLeft mouseX mouseY lightWidth lightHeight ctrl l fresh s =
      { pickSprites mouseX mouseY
          (selectLights mouseX mouseY lightWidth lightHeight { s with signals := sig }) with
        need_to_update := true } := by
    unfold mousePressLeft
    rw [if_neg (by rw [hadd]; exact Bool.false_ne_true)]
    simp only []
    rw [hs1]
  have hsel : selectLights mouseX mouseY lightWidth lightHeight { s with signals := sig } =
      selectLoop mouseX mouseY lightWidth lightHeight (s.lists s.sampleLightList)
        { s with signals := sig } := by
    unfold selectLights
    rw [if_pos (show ({ s with signals := sig } : OpenGlWidget).sample_light_list_used = true
      from hshared)]
  obtain ⟨sp1, sp2, _⟩ := selectLoop_spec mouseX mouseY lightWidth lightHeight
    (s.lists s.sampleLightList) { s with signals := sig } hshown
  rw [hunf, hsel]
  generalize selectLoop mouseX mouseY lightWidth lightHeight (s.lists s.sampleLightList)
    { s with signals := sig } = r at sp1 sp2
  obtain ⟨f1, f2, f3⟩ := pickSprites_keeps mouseX mouseY r
  constructor
  · intro light hfind
    obtain ⟨a1, a2, a3⟩ := sp1 light hfind
    refine ⟨f1.trans a1, f2.trans a2, ?_⟩
    have hmem : Signal.selectedLightChanged light ∈ r.signals.filter Signal.isLightChange := by
      rw [a3]
      simp [Signal.isLightChange]
    have hmem' := f3 ▸ hmem
    exact (List.mem_filter.mp hmem').1
  · intro hfind
    obtain ⟨a1, a2, a3⟩ := sp2 hfind
    refine ⟨f1.trans a1, f2.trans a2, ?_⟩
    exact f3.trans ((congrArg (List.filter Signal.isLightChange) a3).trans hsig)

theorem mousePressBrush_eq (event : QMouseEvent) (s : OpenGlWidget) :
    ∃ op : ℤ × ℤ, mousePressBrush event s = { s with oldPos := op } := by
  unfold mousePressBrush
  by_cases hb : s.brushActive = true
  · rw [if_pos hb]
    exact ⟨_, rfl⟩
  · rw [if_neg hb]
    exact ⟨s.oldPos, rfl⟩

/-- C8 (amended): on a left click in shared-list mode with the markers shown
and add mode off, hit-testing selects the first light of the sample list, in
list order, with `|mx - lx| < 0.3 * iconW / viewportW` and
`|my - ly| < 0.3 * iconH / viewportH`, where `(mx, my)` is the device-space
position of the click; if no light passes the test, `select_light` is not
called: the selection and the flag `lightSelected` are as before and no
`selectedLightChanged` is emitted. -/
theorem mousePress_selects_first_hit (event : QMouseEvent) (l : LightPtr)
    (fresh : LightSource) (s : OpenGlWidget)
    (hleft : event.leftButton = true) (hadd : s.addLight = false)
    (hshared : s.sample_light_list_used = true) (hshown : s.m_light = true) :
    (∀ light,
      (s.lists s.sampleLightList).find?
          (fun q => decide (
            |(screen_to_device s.width s.height event.localPos).1 - (s.lights q).lightPosition.x|
                < 0.3 * (s.laigter.width : ℚ) / s.width ∧
            |(screen_to_device s.width s.height event.localPos).2 - (s.lights q).lightPosition.y|
                < 0.3 * (s.laigter.height : ℚ) / s.height)) = some light →
        (mousePressEvent event l fresh s).currentLight = light ∧
        (mousePressEvent event l fresh s).lightSelected = true ∧
        Signal.selectedLightChanged light ∈ (mousePressEvent event l fresh s).signals) ∧
    ((s.lists s.sampleLightList).find?
          (fun q => decide (
            |(screen_to_device s.width s.height event.localPos).1 - (s.lights q).lightPosition.x|
                < 0.3 * (s.laigter.width : ℚ) / s.width ∧
            |(screen_to_device s.width s.height event.localPos).2 - (s.lights q).lightPosition.y|
                < 0.3 * (s.laigter.height : ℚ) / s.height)) = none →
        (mousePressEvent event l fresh s).currentLight = s.currentLight ∧
        (mousePressEvent event l fresh s).lightSelected = s.lightSelected ∧
        (mousePressEvent event l fresh s).signals.filter Signal.isLightChange =
          s.signals.filter Signal.isLightChange) := by
  obtain ⟨op, hb⟩ := mousePressBrush_eq event s
  have hunf : mousePressEvent event l fresh s =
      mousePressLeft (screen_to_device s.width s.height event.localPos).1
        (screen_to_device s.width s.height event.localPos).2
        ((s.laigter.width : ℚ) / s.width * 0.3) ((s.laigter.height : ℚ) / s.height * 0.3)
        event.ctrl l fresh { s with oldPos := op } := by
    unfold mousePressEvent
    simp only []
    rw [if_pos (by rw [hleft]; rfl), hb]
  have hw : (s.laigter.width : ℚ) / s.width * 0.3 = 0.3 * (s.laigter.width : ℚ) / s.width := by
    ring
  have hh : (s.laigter.height : ℚ) / s.height * 0.3 =
      0.3 * (s.laigter.height : ℚ) / s.height := by
    ring
  rw [hunf, hw, hh]
  exact mousePressLeft_shared _ _ _ _ event.ctrl l fresh { s with oldPos := op } hadd hshared
    hshown

theorem mousePress_selects_first_hit_witness :
    clickSecondLight.leftButton = true ∧ exampleWidget.addLight = false ∧
      exampleWidget.sample_light_list_used = true ∧ exampleWidget.m_light = true ∧
      (mousePressEvent clickSecondLight 2 startLight exampleWidget).currentLight = 1 :=
  ⟨rfl, rfl, rfl, rfl,
    ((mousePress_selects_first_hit clickSecondLight 2 startLight exampleWidget rfl rfl rfl rfl).1 1
      (by
        simp only [exampleWidget, clickSecondLight, clickCentre, screen_to_device, startLight,
          secondLight]
        norm_num [List.find?, abs_lt])).1⟩

/-- C8, as stated, fails in add mode: the click at the device point (0, 0)
passes the test for no light of the sample list, and yet the selection moves
from light 0 to the light the press has just added. -/
theorem mousePress_add_mode_changes_selection :
    clickCentre.leftButton = true ∧ addModeWidget.sample_light_list_used = true ∧
      addModeWidget.m_light = true ∧
      (addModeWidget.lists addModeWidget.sampleLightList).find?
          (fun q => decide (
            |(screen_to_device addModeWidget.width addModeWidget.height clickCentre.localPos).1
                - (addModeWidget.lights q).lightPosition.x|
              < 0.3 * (addModeWidget.laigter.width : ℚ) / addModeWidget.width ∧
            |(screen_to_device addModeWidget.width addModeWidget.height clickCentre.localPos).2
                - (addModeWidget.lights q).lightPosition.y|
              < 0.3 * (addModeWidget.laigter.height : ℚ) / addModeWidget.height)) = none ∧
      addModeWidget.currentLight = 0 ∧
      (mousePressEvent clickCentre 2 startLight addModeWidget).currentLight = 2 := by
  refine ⟨rfl, rfl, rfl, ?_, rfl, ?_⟩
  · simp only [addModeWidget, exampleWidget, clickCentre, screen_to_device, startLight,
      secondLight]
    norm_num [List.find?, abs_lt]
  · decide

/-! ## Light uniforms: what the calls leave untouched -/

theorem applyLightStep_frame (i : ℕ) (light : LightPtr) (s : OpenGlWidget) :
    ∃ u, applyLightStep i light s = { s with uniforms := u } := by
  simp only [applyLightStep, setUniformValue]
  exact ⟨_, rfl⟩

theorem applyLightLoop_frame (i : ℕ) (L : List LightPtr) (s : OpenGlWidget) :
    ∃ u, applyLightLoop i L s = { s with uniforms := u } := by
  induction L generalizing i s with
  | nil => exact ⟨s.uniforms, rfl⟩
  | cons light rest ih =>
    obtain ⟨v, hv⟩ := applyLightStep_frame i light s
    obtain ⟨u, hu⟩ := ih (i + 1) { s with uniforms := v }
    refine ⟨u, ?_⟩
    rw [applyLightLoop, hv, hu]

theorem apply_light_params_frame (s : OpenGlWidget) :
    ∃ u, apply_light_params s = { s with uniforms := u } := by
  unfold apply_light_params
  by_cases h : (shadingLightList s).length = 0
  · simp only [h, if_true]
    exact ⟨s.uniforms, rfl⟩
  · simp only [h, if_false]
    obtain ⟨u, hu⟩ := applyLightLoop_frame 0 (shadingLightList s)
      (setUniformValue UniformName.lightNum
        (UniformValue.int ((shadingLightList s).length : ℤ)) s)
    exact ⟨u, hu.trans rfl⟩

/-! ## Export -/

theorem previewSprite_fields (s : OpenGlWidget) (pp : ProcPtr) :
    (previewSprite s pp).2 = s.m_image ∧ (previewSprite s pp).1.m_image = s.m_image := by
  obtain ⟨u, hu⟩ := apply_light_params_frame (setImage (s.procs pp).texture s)
  unfold previewSprite
  simp only []
  rw [hu]
  exact ⟨rfl, rfl⟩

theorem previewFullStep_fields (acc : OpenGlWidget × CropRect × List DrawTransform)
    (pp : ProcPtr) :
    (previewFullStep acc pp).2.1 = cropStep acc.1.width acc.1.height acc.2.1 (acc.1.procs pp) ∧
      (previewFullStep acc pp).1.width = acc.1.width ∧
      (previewFullStep acc pp).1.height = acc.1.height ∧
      (previewFullStep acc pp).1.procs = acc.1.procs := by
  obtain ⟨u, hu⟩ := apply_light_params_frame (setImage (acc.1.procs pp).texture acc.1)
  unfold previewFullStep
  simp only []
  rw [hu]
  exact ⟨trivial, rfl, rfl, rfl⟩

theorem previewSprite_fold (L : List ProcPtr) (acc : OpenGlWidget × List QImage) :
    (L.foldl (fun (a : OpenGlWidget × List QImage) pp =>
        ((previewSprite a.1 pp).1, a.2 ++ [(previewSprite a.1 pp).2])) acc).2 =
      acc.2 ++ L.map (fun _ => acc.1.m_image) ∧
    (L.foldl (fun (a : OpenGlWidget × List QImage) pp =>
        ((previewSprite a.1 pp).1, a.2 ++ [(previewSprite a.1 pp).2])) acc).1.m_image =
      acc.1.m_image := by
  induction L generalizing acc with
  | nil => simp
  | cons pp rest ih =>
    rw [List.foldl_cons]
    obtain ⟨h1, h2⟩ := ih ((previewSprite acc.1 pp).1, acc.2 ++ [(previewSprite acc.1 pp).2])
    rw [h1, h2]
    obtain ⟨k1, k2⟩ := previewSprite_fields acc.1 pp
    simp only [k1, k2, List.map_cons, List.append_assoc, List.singleton_append, and_self]

/-- What the per-sprite export does: every sprite is rendered into a buffer
of the size of the member `m_image`, whatever the sprite's texture is. -/
theorem calculate_preview_sprites_buffers (s : OpenGlWidget) :
    (calculate_preview_sprites s).2 = s.processorList.map (fun _ => s.m_image) := by
  have h := (previewSprite_fold s.processorList (s, [])).1
  simpa [calculate_preview_sprites] using h

/-- C9 fails on the code: with the sprites `smallSprite` (8 x 8) and
`wideSprite` (16 x 4) in the list, after the sprite loop of `update_scene`
(which `paintGL` runs before the export) the per-sprite export renders both
sprites into buffers of 16 x 4, the size of the last diffuse frame read into
`m_image`; the buffer of the first sprite is not 8 x 8. -/
theorem per_sprite_export_wrong_size :
    twoSpriteWidget.processorList.map (fun pp => (twoSpriteWidget.procs pp).texture) =
        [⟨8, 8⟩, ⟨16, 4⟩] ∧
      (calculate_preview_sprites (update_scene_sprites twoSpriteWidget).1).2 =
        [⟨16, 4⟩, ⟨16, 4⟩] := by
  constructor
  · decide
  · rw [calculate_preview_sprites_buffers]
    rfl

theorem foldl_min_isLeast (l : List ℤ) (a : ℤ) :
    IsLeast {v | v = a ∨ v ∈ l} (l.foldl min a) := by
  induction l generalizing a with
  | nil =>
    constructor
    · exact Or.inl rfl
    · intro v hv
      rcases hv with hv | hv
      · exact hv ▸ le_refl _
      · cases hv
  | cons b rest ih =>
    rw [List.foldl_cons]
    obtain ⟨hmem, hlb⟩ := ih (min a b)
    constructor
    · rcases hmem with h | h
      · rcases min_choice a b with hc | hc
        · exact Or.inl (h.trans hc)
        · exact Or.inr (by rw [h, hc]; exact List.mem_cons_self _ _)
      · exact Or.inr (List.mem_cons_of_mem _ h)
    · intro v hv
      rcases hv with hv | hv
      · rw [hv]
        exact (hlb (Or.inl rfl)).trans (min_le_left a b)
      · rcases List.mem_cons.mp hv with hv | hv
        · rw [hv]
          exact (hlb (Or.inl rfl)).trans (min_le_right a b)
        · exact hlb (Or.inr hv)

theorem foldl_max_isGreatest (l : List ℤ) (a : ℤ) :
    IsGreatest {v | v = a ∨ v ∈ l} (l.foldl max a) := by
  induction l generalizing a with
  | nil =>
    constructor
    · exact Or.inl rfl
    · intro v hv
      rcases hv with hv | hv
      · exact hv ▸ le_refl _
      · cases hv
  | cons b rest ih =>
    rw [List.foldl_cons]
    obtain ⟨hmem, hub⟩ := ih (max a b)
    constructor
    · rcases hmem with h | h
      · rcases max_choice a b with hc | hc
        · exact Or.inl (h.trans hc)
        · exact Or.inr (by rw [h, hc]; exact List.mem_cons_self _ _)
      · exact Or.inr (List.mem_cons_of_mem _ h)
    · intro v hv
      rcases hv with hv | hv
      · rw [hv]
        exact (le_max_left a b).trans (hub (Or.inl rfl))
      · rcases List.mem_cons.mp hv with hv | hv
        · rw [hv]
          exact (le_max_right a b).trans (hub (Or.inl rfl))
        · exact hub (Or.inr hv)

theorem cropStep_plain (w h : ℤ) (r : CropRect) (p : ImageProcessor)
    (hx : p.tile_x = false) (hy : p.tile_y = false) :
    cropStep w h r p =
      ⟨min r.xmin (xi w p), max r.xmax (xf w p), min r.ymin (yi h p), max r.ymax (yf h p)⟩ := by
  obtain ⟨a, b, c, d⟩ := r
  simp only [cropStep, hx, hy, Bool.false_eq_true, if_false]
  generalize xi w p = i1
  generalize xf w p = i2
  generalize yi h p = i3
  generalize yf h p = i4
  by_cases h1 : i1 < a <;> by_cases h2 : i2 > b <;> by_cases h3 : i3 < c <;>
    by_cases h4 : i4 > d <;>
    simp only [h1, h2, h3, h4, if_true, if_false, CropRect.mk.injEq] <;>
    refine ⟨?_, ?_, ?_, ?_⟩ <;> simp only [min_def, max_def] <;> split_ifs <;> omega

theorem cropStep_fold_plain (w h : ℤ) (ps : List ImageProcessor) (r : CropRect)
    (hx : ∀ p ∈ ps, p.tile_x = false) (hy : ∀ p ∈ ps, p.tile_y = false) :
    ps.foldl (cropStep w h) r =
      ⟨(ps.map (xi w)).foldl min r.xmin, (ps.map (xf w)).foldl max r.xmax,
        (ps.map (yi h)).foldl min r.ymin, (ps.map (yf h)).foldl max r.ymax⟩ := by
  induction ps generalizing r with
  | nil => rfl
  | cons p rest ih =>
    rw [List.foldl_cons, ih _ (fun q hq => hx q (List.mem_cons_of_mem _ hq))
      (fun q hq => hy q (List.mem_cons_of_mem _ hq)),
      cropStep_plain w h r p (hx p (List.mem_cons_self _ _)) (hy p (List.mem_cons_self _ _))]
    simp only [List.map_cons, List.foldl_cons]

theorem previewFullStep_fold (L : List ProcPtr)
    (acc : OpenGlWidget × CropRect × List DrawTransform) :
    (L.foldl previewFullStep acc).2.1 =
        (L.map acc.1.procs).foldl (cropStep acc.1.width acc.1.height) acc.2.1 := by
  induction L generalizing acc with
  | nil => rfl
  | cons pp rest ih =>
    rw [List.foldl_cons, ih]
    obtain ⟨k1, k2, k3, k4⟩ := previewFullStep_fields acc pp
    simp only [k1, k2, k3, k4, List.map_cons, List.foldl_cons]

theorem calculate_preview_full_crop (s : OpenGlWidget) :
    (calculate_preview_full s).2.1 =
      (s.processorList.map s.procs).foldl (cropStep s.width s.height)
        ⟨s.width, 0, s.height, 0⟩ :=
  previewFullStep_fold s.processorList (s, ⟨s.width, 0, s.height, 0⟩, [])

theorem foldl_min_map_isLeast (L : List ProcPtr) (f : ProcPtr → ℤ) (a : ℤ) :
    IsLeast {v | v = a ∨ ∃ pp ∈ L, v = f pp} ((L.map f).foldl min a) := by
  have h := foldl_min_isLeast (L.map f) a
  have hset : {v | v = a ∨ ∃ pp ∈ L, v = f pp} = {v | v = a ∨ v ∈ L.map f} := by
    ext v
    simp only [Set.mem_setOf_eq, List.mem_map]
    constructor
    · rintro (h | ⟨pp, hp, hv⟩)
      · exact Or.inl h
      · exact Or.inr ⟨pp, hp, hv.symm⟩
    · rintro (h | ⟨pp, hp, hv⟩)
      · exact Or.inl h
      · exact Or.inr ⟨pp, hp, hv.symm⟩
  rw [hset]
  exact h

theorem foldl_max_map_isGreatest (L : List ProcPtr) (f : ProcPtr → ℤ) (a : ℤ) :
    IsGreatest {v | v = a ∨ ∃ pp ∈ L, v = f pp} ((L.map f).foldl max a) := by
  have h := foldl_max_isGreatest (L.map f) a
  have hset : {v | v = a ∨ ∃ pp ∈ L, v = f pp} = {v | v = a ∨ v ∈ L.map f} := by
    ext v
    simp only [Set.mem_setOf_eq, List.mem_map]
    constructor
    · rintro (h | ⟨pp, hp, hv⟩)
      · exact Or.inl h
      · exact Or.inr ⟨pp, hp, hv.symm⟩
    · rintro (h | ⟨pp, hp, hv⟩)
      · exact Or.inl h
      · exact Or.inr ⟨pp, hp, hv.symm⟩
  rw [hset]
  exact h

theorem foldl_min_map_perm (L L' : List ProcPtr) (hp : L'.Perm L) (f : ProcPtr → ℤ) (a : ℤ) :
    (L'.map f).foldl min a = (L.map f).foldl min a := by
  have h1 := foldl_min_map_isLeast L f a
  have h2 := foldl_min_map_isLeast L' f a
  have hset : {v | v = a ∨ ∃ pp ∈ L', v = f pp} = {v | v = a ∨ ∃ pp ∈ L, v = f pp} := by
    ext v
    simp only [Set.mem_setOf_eq, hp.mem_iff]
  rw [hset] at h2
  exact h2.unique h1

theorem foldl_max_map_perm (L L' : List ProcPtr) (hp : L'.Perm L) (f : ProcPtr → ℤ) (a : ℤ) :
    (L'.map f).foldl max a = (L.map f).foldl max a := by
  have h1 := foldl_max_map_isGreatest L f a
  have h2 := foldl_max_map_isGreatest L' f a
  have hset : {v | v = a ∨ ∃ pp ∈ L', v = f pp} = {v | v = a ∨ ∃ pp ∈ L, v = f pp} := by
    ext v
    simp only [Set.mem_setOf_eq, hp.mem_iff]
  rw [hset] at h2
  exact h2.unique h1

theorem calculate_preview_full_plain (s : OpenGlWidget)
    (hx : ∀ pp ∈ s.processorList, (s.procs pp).tile_x = false)
    (hy : ∀ pp ∈ s.processorList, (s.procs pp).tile_y = false) :
    (calculate_preview_full s).2.1 =
      ⟨(s.processorList.map (fun pp => xi s.width (s.procs pp))).foldl min s.width,
        (s.processorList.map (fun pp => xf s.width (s.procs pp))).foldl max 0,
        (s.processorList.map (fun pp => yi s.height (s.procs pp))).foldl min s.height,
        (s.processorList.map (fun pp => yf s.height (s.procs pp))).foldl max 0⟩ := by
  rw [calculate_preview_full_crop, cropStep_fold_plain]
  · simp only [List.map_map]
    rfl
  · intro p hp
    obtain ⟨pp, hpp, rfl⟩ := List.mem_map.mp hp
    exact hx pp hpp
  · intro p hp
    obtain ⟨pp, hpp, rfl⟩ := List.mem_map.mp hp
    exact hy pp hpp

/-- C10 (amended): when no sprite is tiled, the crop rectangle of the
full-canvas export is the union of the sprites' footprints capped by the
start values of the bounds: `xmin` is the least of `width()` and the `xi`,
`xmax` the greatest of 0 and the `xf`, `ymin` the least of `height()` and the
`yi`, `ymax` the greatest of 0 and the `yf`; and it is the same for every
permutation `L` of the sprite list. -/
theorem crop_is_capped_union (s : OpenGlWidget) (L : List ProcPtr)
    (hx : ∀ pp ∈ s.processorList, (s.procs pp).tile_x = false)
    (hy : ∀ pp ∈ s.processorList, (s.procs pp).tile_y = false)
    (hperm : L.Perm s.processorList) :
    IsLeast {v | v = s.width ∨ ∃ pp ∈ s.processorList, v = xi s.width (s.procs pp)}
        (calculate_preview_full s).2.1.xmin ∧
      IsGreatest {v | v = 0 ∨ ∃ pp ∈ s.processorList, v = xf s.width (s.procs pp)}
        (calculate_preview_full s).2.1.xmax ∧
      IsLeast {v | v = s.height ∨ ∃ pp ∈ s.processorList, v = yi s.height (s.procs pp)}
        (calculate_preview_full s).2.1.ymin ∧
      IsGreatest {v | v = 0 ∨ ∃ pp ∈ s.processorList, v = yf s.height (s.procs pp)}
        (calculate_preview_full s).2.1.ymax ∧
      (calculate_preview_full { s with processorList := L }).2.1 =
        (calculate_preview_full s).2.1 := by
  have hx' : ∀ pp ∈ L, (s.procs pp).tile_x = false := fun pp hp => hx pp (hperm.mem_iff.mp hp)
  have hy' : ∀ pp ∈ L, (s.procs pp).tile_y = false := fun pp hp => hy pp (hperm.mem_iff.mp hp)
  rw [calculate_preview_full_plain s hx hy,
    calculate_preview_full_plain { s with processorList := L } hx' hy']
  refine ⟨foldl_min_map_isLeast _ _ _, foldl_max_map_isGreatest _ _ _,
    foldl_min_map_isLeast _ _ _, foldl_max_map_isGreatest _ _ _, ?_⟩
  simp only [CropRect.mk.injEq]
  exact ⟨foldl_min_map_perm _ _ hperm _ _, foldl_max_map_perm _ _ hperm _ _,
    foldl_min_map_perm _ _ hperm _ _, foldl_max_map_perm _ _ hperm _ _⟩

theorem crop_is_capped_union_witness :
    (∀ pp ∈ twoSpriteWidget.processorList, (twoSpriteWidget.procs pp).tile_x = false) ∧
      (∀ pp ∈ twoSpriteWidget.processorList, (twoSpriteWidget.procs pp).tile_y = false) ∧
      [1, 0].Perm twoSpriteWidget.processorList ∧
      (calculate_preview_full { twoSpriteWidget with processorList := [1, 0] }).2.1 =
        (calculate_preview_full twoSpriteWidget).2.1 :=
  ⟨by decide, by decide, by decide,
    (crop_is_capped_union twoSpriteWidget [1, 0] (by decide) (by decide) (by decide)).2.2.2.2⟩

/-- C10, as stated, fails for a sprite beyond the right edge of the
viewport: with the single sprite `offScreenSprite` in a viewport of
100 x 100, `xi` is 195 and yet `xmin` stays at `width()`, 100. -/
theorem crop_xmin_not_min_xi :
    offScreenWidget.processorList = [0] ∧
      (offScreenWidget.procs 0).tile_x = false ∧ (offScreenWidget.procs 0).tile_y = false ∧
      xi offScreenWidget.width (offScreenWidget.procs 0) = 195 ∧
      (calculate_preview_full offScreenWidget).2.1.xmin = 100 := by
  have hxi : xi offScreenWidget.width (offScreenWidget.procs 0) = 195 := by
    norm_num [xi, footprintXi, truncToInt, offScreenWidget, offScreenSprite, exampleSprite,
      exampleWidget]
  refine ⟨rfl, rfl, rfl, hxi, ?_⟩
  rw [calculate_preview_full_plain offScreenWidget (by decide) (by decide)]
  show ([0].map (fun pp => xi offScreenWidget.width (offScreenWidget.procs pp))).foldl min
    offScreenWidget.width = 100
  simp only [List.map_cons, List.map_nil, List.foldl_cons, List.foldl_nil, hxi]
  rfl

theorem cropStep_x (w h : ℤ) (r : CropRect) (p : ImageProcessor) :
    (cropStep w h r p).xmin = (if p.tile_x then 0 else min r.xmin (xi w p)) ∧
      (cropStep w h r p).xmax = (if p.tile_x then w - 1 else max r.xmax (xf w p)) := by
  obtain ⟨a, b, c, d⟩ := r
  unfold cropStep
  generalize xi w p = i1
  generalize xf w p = i2
  generalize yi h p = i3
  generalize yf h p = i4
  cases p.tile_x <;> cases p.tile_y <;>
    by_cases h1 : i1 < a <;> by_cases h2 : i2 > b <;> by_cases h3 : i3 < c <;>
    by_cases h4 : i4 > d <;>
    simp only [h1, h2, h3, h4, Bool.false_eq_true, if_false, if_true, min_def, max_def,
      true_and, and_true] <;>
    (try constructor) <;> (try split_ifs) <;> (try omega)

/-- C11 fails on the code: in a viewport of 100 x 100 with the sprite
`tiledXSprite` drawn first and the plain sprite `leftEdgeSprite` (footprint
x from -5 to 5) drawn after it, the crop's x range is [-5, 99], not [0, 99];
with the same two sprites in the other order it is [0, 99]. -/
theorem crop_tiled_depends_on_order :
    (tileOrderWidget.procs 0).tile_x = true ∧ (tileOrderWidget.procs 1).tile_x = false ∧
      tileOrderWidget.processorList = [0, 1] ∧ tileOrderWidget.width = 100 ∧
      (calculate_preview_full tileOrderWidget).2.1.xmin = -5 ∧
      (calculate_preview_full tileOrderWidget).2.1.xmax = 99 ∧
      (calculate_preview_full { tileOrderWidget with processorList := [1, 0] }).2.1.xmin = 0 ∧
      (calculate_preview_full { tileOrderWidget with processorList := [1, 0] }).2.1.xmax = 99 := by
  have hxi : xi 100 leftEdgeSprite = -5 := by
    have h : footprintXi 100 leftEdgeSprite = ((-5 : ℤ) : ℚ) := by
      norm_num [footprintXi, leftEdgeSprite, exampleSprite]
    rw [xi, h, truncToInt, if_neg (by norm_num), Int.ceil_intCast]
  have hxf : xf 100 leftEdgeSprite = 5 := by
    have h : footprintXf 100 leftEdgeSprite = ((5 : ℤ) : ℚ) := by
      norm_num [footprintXf, leftEdgeSprite, exampleSprite]
    rw [xf, h, truncToInt, if_pos (by norm_num), Int.floor_intCast]
  have ht : tiledXSprite.tile_x = true := rfl
  have hp : leftEdgeSprite.tile_x = false := rfl
  refine ⟨rfl, rfl, rfl, rfl, ?_, ?_, ?_, ?_⟩
  · rw [calculate_preview_full_crop]
    show (cropStep 100 100 (cropStep 100 100 ⟨100, 0, 100, 0⟩ tiledXSprite) leftEdgeSprite).xmin
      = -5
    rw [(cropStep_x _ _ _ _).1, (cropStep_x _ _ _ _).1, ht, hp, hxi]
    decide
  · rw [calculate_preview_full_crop]
    show (cropStep 100 100 (cropStep 100 100 ⟨100, 0, 100, 0⟩ tiledXSprite) leftEdgeSprite).xmax
      = 99
    rw [(cropStep_x _ _ _ _).2, (cropStep_x _ _ _ _).2, ht, hp, hxf]
    decide
  · rw [calculate_preview_full_crop]
    show (cropStep 100 100 (cropStep 100 100 ⟨100, 0, 100, 0⟩ leftEdgeSprite) tiledXSprite).xmin
      = 0
    rw [(cropStep_x _ _ _ _).1, ht]
    rfl
  · rw [calculate_preview_full_crop]
    show (cropStep 100 100 (cropStep 100 100 ⟨100, 0, 100, 0⟩ leftEdgeSprite) tiledXSprite).xmax
      = 99
    rw [(cropStep_x _ _ _ _).2, ht]
    rfl

/-! ## Autosave path -/

theorem digitChar_toNat (k : ℕ) (hk : k < 10) : (Nat.digitChar k).toNat - 48 = k := by
  interval_cases k <;> rfl

theorem toDigitsCore_decode (fuel n : ℕ) (ds : List Char) (h : n < fuel) :
    ∃ pre : List Char, Nat.toDigitsCore 10 fuel n ds = pre ++ ds ∧
      pre.foldl (fun a c => 10 * a + (c.toNat - 48)) 0 = n := by
  induction fuel generalizing n ds with
  | zero => omega
  | succ fuel ih =>
    unfold Nat.toDigitsCore
    simp only []
    by_cases h0 : n / 10 = 0
    · rw [if_pos h0]
      refine ⟨[Nat.digitChar (n % 10)], rfl, ?_⟩
      simp only [List.foldl_cons, List.foldl_nil, Nat.mul_zero, Nat.zero_add]
      rw [digitChar_toNat _ (Nat.mod_lt _ (by decide))]
      omega
    · rw [if_neg h0]
      have hlt : n / 10 < fuel := by omega
      obtain ⟨pre, hpre, hval⟩ := ih (n / 10) (Nat.digitChar (n % 10) :: ds) hlt
      refine ⟨pre ++ [Nat.digitChar (n % 10)], ?_, ?_⟩
      · rw [hpre]
        simp
      · rw [List.foldl_append, hval]
        simp only [List.foldl_cons, List.foldl_nil]
        rw [digitChar_toNat _ (Nat.mod_lt _ (by decide))]
        omega

theorem number_injective (j k : ℕ) (h : QString.number j = QString.number k) : j = k := by
  obtain ⟨p1, h1, v1⟩ := toDigitsCore_decode (j + 1) j [] (Nat.lt_succ_self j)
  obtain ⟨p2, h2, v2⟩ := toDigitsCore_decode (k + 1) k [] (Nat.lt_succ_self k)
  unfold QString.number Nat.toDigits at h
  rw [h1, h2, List.append_nil, List.append_nil] at h
  rw [← v1, ← v2, h]

theorem autosaveCandidate_injective (exportBasePath name : QString) (j k : ℕ)
    (h : autosaveCandidate exportBasePath name j = autosaveCandidate exportBasePath name k) :
    j = k := by
  unfold autosaveCandidate autosaveFirst autosaveNumbered at h
  by_cases hj : j = 1 <;> by_cases hk : k = 1
  · rw [hj, hk]
  · rw [if_pos hj, if_neg hk] at h
    simp only [List.append_assoc, List.append_cancel_left_eq] at h
    exact absurd h (by simp)
  · rw [if_neg hj, if_pos hk] at h
    simp only [List.append_assoc, List.append_cancel_left_eq] at h
    exact absurd h (by simp)
  · rw [if_neg hj, if_neg hk] at h
    simp only [List.append_assoc, List.append_cancel_left_eq] at h
    have h' : QString.number j ++ (")".data ++ ("_v.".data ++ QFileInfo.completeSuffix name)) =
        QString.number k ++ (")".data ++ ("_v.".data ++ QFileInfo.completeSuffix name)) := h
    exact number_injective j k (List.append_cancel_right h')

theorem autosaveSearch_spec (files : List QString) (exportBasePath name : QString)
    (fuel i : ℕ) (hi : 1 ≤ i)
    (hbelow : ∀ j, 1 ≤ j → j < i → autosaveCandidate exportBasePath name j ∈ files)
    (hfree : ∃ k, i ≤ k ∧ k < i + fuel ∧ autosaveCandidate exportBasePath name k ∉ files) :
    ∃ k, i ≤ k ∧ k < i + fuel ∧
      autosaveSearch (fun p => decide (p ∈ files)) exportBasePath name fuel i
          (autosaveCandidate exportBasePath name i) =
        some (autosaveCandidate exportBasePath name k) ∧
      autosaveCandidate exportBasePath name k ∉ files ∧
      ∀ j, 1 ≤ j → j < k → autosaveCandidate exportBasePath name j ∈ files := by
  induction fuel generalizing i with
  | zero =>
    obtain ⟨k, h1, h2, _⟩ := hfree
    omega
  | succ fuel ih =>
    by_cases hin : autosaveCandidate exportBasePath name i ∈ files
    · have hnext : autosaveNumbered exportBasePath name (i + 1) =
          autosaveCandidate exportBasePath name (i + 1) := by
        unfold autosaveCandidate
        rw [if_neg (by omega)]
      have hbelow' : ∀ j, 1 ≤ j → j < i + 1 → autosaveCandidate exportBasePath name j ∈ files := by
        intro j h1 h2
        by_cases hji : j = i
        · rw [hji]
          exact hin
        · exact hbelow j h1 (by omega)
      have hfree' : ∃ k, i + 1 ≤ k ∧ k < i + 1 + fuel ∧
          autosaveCandidate exportBasePath name k ∉ files := by
        obtain ⟨k, h1, h2, h3⟩ := hfree
        refine ⟨k, ?_, by omega, h3⟩
        by_contra hlt
        have hki : k = i := by omega
        rw [hki] at h3
        exact h3 hin
      obtain ⟨k, h1, h2, h3, h4, h5⟩ := ih (i + 1) (by omega) hbelow' hfree'
      refine ⟨k, by omega, by omega, ?_, h4, h5⟩
      rw [autosaveSearch, if_pos (by simpa using hin), hnext]
      exact h3
    · refine ⟨i, le_refl i, by omega, ?_, hin, hbelow⟩
      rw [autosaveSearch, if_neg (by simpa using hin)]

theorem autosaveCandidate_free (files : List QString) (exportBasePath name : QString) :
    ∃ k, 1 ≤ k ∧ k < 1 + (files.length + 1) ∧
      autosaveCandidate exportBasePath name k ∉ files := by
  by_contra hall
  have hmem : ∀ k ∈ List.range' 1 (files.length + 1),
      autosaveCandidate exportBasePath name k ∈ files := by
    intro k hk
    by_contra hk'
    rw [List.mem_range'_1] at hk
    exact hall ⟨k, hk.1, hk.2, hk'⟩
  have hnodup : ((List.range' 1 (files.length + 1)).map
      (autosaveCandidate exportBasePath name)).Nodup :=
    (List.nodup_range' 1 (files.length + 1)).map
      (fun j k h => autosaveCandidate_injective exportBasePath name j k h)
  have hsub : (List.range' 1 (files.length + 1)).map (autosaveCandidate exportBasePath name) ⊆
      files := by
    intro p hp
    obtain ⟨k, hk, rfl⟩ := List.mem_map.mp hp
    exact hmem k hk
  have hlen := (List.subperm_of_subset hnodup hsub).length_le
  simp at hlen

/-- C12: in an export directory, whatever finite list `files` of paths
exists, the search for the autosave name ends within `files.length + 1` tests
and returns the first name of the sequence `base_v.ext`, `base(2)_v.ext`,
`base(3)_v.ext`, ... that is not in `files`: the returned name does not exist,
and every earlier name of the sequence does. -/
theorem autosave_first_free_name (files : List QString) (exportBasePath name : QString)
    (fuel : ℕ) (hfuel : files.length + 1 ≤ fuel) :
    ∃ k, 1 ≤ k ∧ k ≤ files.length + 1 ∧
      autosaveInDir (fun p => decide (p ∈ files)) exportBasePath name fuel =
        some (autosaveCandidate exportBasePath name k) ∧
      autosaveCandidate exportBasePath name k ∉ files ∧
      (∀ j, 1 ≤ j → j < k → autosaveCandidate exportBasePath name j ∈ files) ∧
      (exportBasePath ≠ [] →
        autosave (fun p => decide (p ∈ files)) exportBasePath [] name fuel =
          some (autosaveCandidate exportBasePath name k)) := by
  obtain ⟨k0, a1, a2, a3⟩ := autosaveCandidate_free files exportBasePath name
  obtain ⟨k, h1, _, h3, h4, h5⟩ := autosaveSearch_spec files exportBasePath name fuel 1
    (le_refl 1) (fun j h1 h2 => by omega) ⟨k0, a1, by omega, a3⟩
  have hk : k ≤ files.length + 1 := by
    by_contra hgt
    exact a3 (h5 k0 a1 (by omega))
  have hdir : autosaveInDir (fun p => decide (p ∈ files)) exportBasePath name fuel =
      some (autosaveCandidate exportBasePath name k) := h3
  refine ⟨k, h1, hk, hdir, h4, h5, ?_⟩
  intro hne
  unfold autosave
  rw [if_neg hne]
  exact hdir

theorem autosave_first_free_name_witness :
    ["/out/sprite_v.png".data].length + 1 ≤ 5 ∧
      autosaveInDir (fun p => decide (p ∈ ["/out/sprite_v.png".data])) "/out".data
        "/home/u/sprite.png".data 5 = some "/out/sprite(2)_v.png".data ∧
      ∃ k, 1 ≤ k ∧ k ≤ ["/out/sprite_v.png".data].length + 1 ∧
        autosaveInDir (fun p => decide (p ∈ ["/out/sprite_v.png".data])) "/out".data
            "/home/u/sprite.png".data 5 =
          some (autosaveCandidate "/out".data "/home/u/sprite.png".data k) ∧
        autosaveCandidate "/out".data "/home/u/sprite.png".data k ∉
          ["/out/sprite_v.png".data] :=
  ⟨by decide, by decide,
    (autosave_first_free_name ["/out/sprite_v.png".data] "/out".data "/home/u/sprite.png".data 5
      (by decide)).imp (fun _ h => ⟨h.1, h.2.1, h.2.2.1, h.2.2.2.1⟩)⟩

/-- C13 fails on the code: for the source `/home/u/art.png/hero.png` the
autosave next to the source goes to `/home/u/art/hero_v.png`, in another
directory, because `remove("." + suffix)` also removes the `.png` of the
directory name; the claim gives `/home/u/art.png/hero_v.png`.  For a source
whose directory does not contain the suffix the destination is the one of
the claim. -/
theorem autosave_sibling_leaves_directory :
    QFileInfo.completeSuffix "/home/u/art.png/hero.png".data = "png".data ∧
      autosaveSibling "/cwd".data "/home/u/art.png/hero.png".data =
        "/home/u/art/hero_v.png".data ∧
      autosaveSibling "/cwd".data "/home/u/art.png/hero.png".data ≠
        "/home/u/art.png/hero_v.png".data ∧
      autosaveSibling "/cwd".data "/home/u/art/hero.png".data = "/home/u/art/hero_v.png".data ∧
      autosaveSibling "/cwd".data "/home/u/art/hero".data = "/home/u/art/hero_v.png".data := by
  decide

/-! ## Light uniforms -/

/-- C14 (amended): when the light list that `apply_light_params` reads is
empty, the call sets no uniform at all: the state after it is the state
before it, so there is no per-light entry, and the light-count and ambient
uniforms keep the values of the last call that had lights. -/
theorem apply_light_params_empty (s : OpenGlWidget) (h : shadingLightList s = []) :
    apply_light_params s = s ∧
      (apply_light_params s).uniforms = s.uniforms ∧
      ∀ name, uniformValue (apply_light_params s).uniforms name =
        uniformValue s.uniforms name := by
  have hs : apply_light_params s = s := by
    unfold apply_light_params
    simp [h]
  rw [hs]
  exact ⟨rfl, rfl, fun _ => rfl⟩

theorem apply_light_params_empty_witness :
    shadingLightList staleUniformWidget = [] ∧
      apply_light_params staleUniformWidget = staleUniformWidget :=
  ⟨by decide, (apply_light_params_empty staleUniformWidget (by decide)).1⟩

/-- C14, as stated, fails: in `staleUniformWidget` the light list is empty
and the ambient intensity is 0.5, yet after `apply_light_params` the
light-count uniform is 2 and the ambient intensity uniform is 0.8, the values
written when the list had two lights. -/
theorem apply_light_params_empty_keeps_stale :
    shadingLightList staleUniformWidget = [] ∧
      staleUniformWidget.ambientIntensity = 0.5 ∧
      uniformValue (apply_light_params staleUniformWidget).uniforms UniformName.lightNum =
        some (UniformValue.int 2) ∧
      uniformValue (apply_light_params staleUniformWidget).uniforms
        UniformName.ambientIntensity = some (UniformValue.float 0.8) := by
  refine ⟨by decide, rfl, ?_, ?_⟩
  · decide
  · rfl

theorem fdiv_eq_none (a b : ℚ) : fdiv a b = none ↔ b = 0 := by
  unfold fdiv
  by_cases h : b = 0 <;> simp [h]

theorem fdiv_of_ne (a b : ℚ) (h : b ≠ 0) : fdiv a b = some (a / b) := by
  unfold fdiv
  rw [if_neg h]

theorem paintGL_runs (s : OpenGlWidget) :
    (paintGL s).2 = if s.need_to_update then 1 else 0 := by
  unfold paintGL
  by_cases h : s.need_to_update = true <;> simp [h]

/-- C16 (amended): the divisions by the viewport size are not guarded.  Each
of `setImage`, `resizeGL` (for its arguments `w`, `h`), the marker pass of
`update_scene` and the mouse conversion performs a division by zero exactly
when the width or the height is 0, and for a non-zero size gives the ratios
`W / width`, `H / height` (and the device point); and `paintGL` runs
`update_scene` whenever `need_to_update` is set, whatever the viewport size
is: no frame is skipped. -/
theorem viewport_divisions_unguarded (s : OpenGlWidget) (image : QImage) (w h : ℤ)
    (p : ℚ × ℚ) :
    (setImageChecked image s = none ↔ s.width = 0 ∨ s.height = 0) ∧
    (s.width ≠ 0 → s.height ≠ 0 → setImageChecked image s = some (setImage image s)) ∧
    (resizeGLChecked w h s = none ↔ w = 0 ∨ h = 0) ∧
    (w ≠ 0 → h ≠ 0 → resizeGLChecked w h s = some (resizeGL w h s)) ∧
    (lightMarkerRatioChecked s = none ↔ s.width = 0 ∨ s.height = 0) ∧
    (s.width ≠ 0 → s.height ≠ 0 →
      lightMarkerRatioChecked s =
        some ((s.laigter.width : ℚ) / s.width, (s.laigter.height : ℚ) / s.height)) ∧
    (screenToDeviceChecked w h p = none ↔ w = 0 ∨ h = 0) ∧
    (w ≠ 0 → h ≠ 0 → screenToDeviceChecked w h p = some (screen_to_device w h p)) ∧
    (s.need_to_update = true → (paintGL s).2 = 1) := by
  have hz : ∀ c : ℤ, ((c : ℚ) = 0 ↔ c = 0) := fun c => Int.cast_eq_zero
  refine ⟨?_, ?_, ?_, ?_, ?_, ?_, ?_, ?_, ?_⟩
  · unfold setImageChecked fdiv
    by_cases hc : s.width = 0 <;> by_cases hd : s.height = 0 <;> simp [hc, hd, hz]
  · intro hc hd
    unfold setImageChecked fdiv setImage
    simp [hc, hd, hz]
  · unfold resizeGLChecked fdiv
    by_cases hc : w = 0 <;> by_cases hd : h = 0 <;> simp [hc, hd, hz]
  · intro hc hd
    unfold resizeGLChecked fdiv resizeGL
    simp [hc, hd, hz]
  · unfold lightMarkerRatioChecked fdiv
    by_cases hc : s.width = 0 <;> by_cases hd : s.height = 0 <;> simp [hc, hd, hz]
  · intro hc hd
    unfold lightMarkerRatioChecked fdiv
    simp [hc, hd, hz]
  · unfold screenToDeviceChecked fdiv
    by_cases hc : w = 0 <;> by_cases hd : h = 0 <;> simp [hc, hd, hz]
  · intro hc hd
    unfold screenToDeviceChecked fdiv screen_to_device
    simp [hc, hd, hz]
  · intro hn
    rw [paintGL_runs, if_pos hn]

theorem viewport_divisions_unguarded_witness :
    exampleWidget.width ≠ 0 ∧ exampleWidget.height ≠ 0 ∧
      setImageChecked ⟨8, 8⟩ exampleWidget = some (setImage ⟨8, 8⟩ exampleWidget) ∧
      (setImageChecked ⟨8, 8⟩ zeroWidthWidget = none ↔
        zeroWidthWidget.width = 0 ∨ zeroWidthWidget.height = 0) :=
  ⟨by decide, by decide,
    (viewport_divisions_unguarded exampleWidget ⟨8, 8⟩ 800 600 (0, 0)).2.1 (by decide)
      (by decide),
    (viewport_divisions_unguarded zeroWidthWidget ⟨8, 8⟩ 800 600 (0, 0)).1⟩

/-- C16, as stated, fails: with a viewport of width 0, `setImage`, the
marker pass, the mouse conversion and `resizeGL(0, 600)` each perform a
division by zero, `setImage` still writes `pixelsX`, and `paintGL` still runs
`update_scene`. -/
theorem zero_viewport_not_guarded :
    zeroWidthWidget.width = 0 ∧
      setImageChecked ⟨8, 8⟩ zeroWidthWidget = none ∧
      lightMarkerRatioChecked zeroWidthWidget = none ∧
      screenToDeviceChecked zeroWidthWidget.width zeroWidthWidget.height (10, 10) = none ∧
      resizeGLChecked 0 600 zeroWidthWidget = none ∧
      zeroWidthWidget.pixelsX = 64 ∧ (setImage ⟨8, 8⟩ zeroWidthWidget).pixelsX = 8 ∧
      (paintGL zeroWidthWidget).2 = 1 := by
  refine ⟨rfl, ?_, ?_, ?_, ?_, rfl, rfl, ?_⟩
  · simp [setImageChecked, fdiv, zeroWidthWidget]
  · simp [lightMarkerRatioChecked, fdiv, zeroWidthWidget]
  · simp [screenToDeviceChecked, fdiv, zeroWidthWidget]
  · simp [resizeGLChecked, fdiv]
  · rw [paintGL_runs]
    rfl

/-! ## Zoom -/

theorem qRound_sign (d : ℤ) (hd : d ≠ 0) :
    (0 < d → qRound ((d : ℚ) / ((|d| : ℤ) : ℚ)) = 1) ∧
      (d < 0 → qRound ((d : ℚ) / ((|d| : ℤ) : ℚ)) = -1) := by
  have hd' : (d : ℚ) ≠ 0 := by exact_mod_cast hd
  constructor
  · intro hpos
    rw [abs_of_pos hpos, div_self hd']
    unfold qRound
    rw [Int.floor_eq_iff]
    constructor <;> norm_num
  · intro hneg
    rw [abs_of_neg hneg]
    have : (d : ℚ) / ((-d : ℤ) : ℚ) = -1 := by
      push_cast
      rw [div_neg, div_self hd']
    rw [this]
    unfold qRound
    rw [Int.floor_eq_iff]
    constructor <;> norm_num

theorem wheelStep_zoom (degree : ℤ × ℤ) (s : OpenGlWidget) (pp q : ProcPtr)
    (h : 0 < (s.procs q).zoom) : 0 < ((wheelStep degree s pp).procs q).zoom := by
  unfold wheelStep
  by_cases hc : degree ≠ (0, 0) ∧ degree.2 ≠ 0
  · rw [if_pos hc]
    simp only []
    by_cases hq : q = pp
    · subst hq
      rw [Function.update_same]
      simp only [QPoint.div]
      rcases lt_or_gt_of_ne hc.2 with hneg | hpos
      · rw [(qRound_sign degree.2 hc.2).2 hneg]
        simp only [show ¬ ((-1 : ℤ) > 0) by decide, if_false]
        push_cast
        nlinarith
      · rw [(qRound_sign degree.2 hc.2).1 hpos]
        simp only [show ((1 : ℤ) > 0) by decide, if_true]
        push_cast
        nlinarith
    · rw [Function.update_noteq hq]
      exact h
  · rw [if_neg hc]
    exact h

theorem wheelStep_fold_zoom (degree : ℤ × ℤ) (L : List ProcPtr) (s : OpenGlWidget)
    (q : ProcPtr) (h : 0 < (s.procs q).zoom) :
    0 < ((L.foldl (wheelStep degree) s).procs q).zoom := by
  induction L generalizing s with
  | nil => exact h
  | cons pp rest ih =>
    rw [List.foldl_cons]
    exact ih _ (wheelStep_zoom degree s pp q h)

theorem setZoom_zoom (z : ℚ) (hz : 0 < z) (s : OpenGlWidget) (q : ProcPtr)
    (h : 0 < (s.procs q).zoom) : 0 < ((setZoom z s).procs q).zoom := by
  unfold setZoom
  simp only []
  by_cases hq : q = s.processor
  · rw [hq, Function.update_same]
    exact hz
  · rw [Function.update_noteq hq]
    exact h

theorem resetPosition_zoom (s : OpenGlWidget) (q : ProcPtr) :
    ((resetPosition s).procs q).zoom = (s.procs q).zoom := by
  unfold resetPosition
  simp only []
  by_cases hq : q = s.processor
  · rw [hq, Function.update_same]
  · rw [Function.update_noteq hq]

theorem ZoomAction_run_zoom (a : ZoomAction) (s : OpenGlWidget) (ha : a.admissible s)
    (q : ProcPtr) (h : 0 < (s.procs q).zoom) : 0 < ((a.run s).procs q).zoom := by
  cases a with
  | wheel d =>
    exact wheelStep_fold_zoom _ _ s q h
  | reset =>
    show 0 < ((resetPosition (setZoom 1.0 s)).procs q).zoom
    rw [resetPosition_zoom]
    exact setZoom_zoom _ (by norm_num) s q h
  | fit =>
    obtain ⟨h1, h2, h3, h4⟩ := ha
    show 0 < ((resetPosition (setZoom _ s)).procs q).zoom
    rw [resetPosition_zoom]
    refine setZoom_zoom _ ?_ s q h
    have hx : (0 : ℚ) < (s.m_image.width : ℚ) / s.width :=
      div_pos (by exact_mod_cast h1) (by exact_mod_cast h3)
    exact one_div_pos.mpr (lt_of_lt_of_le hx (le_max_left _ _))
  | set z =>
    exact setZoom_zoom z ha s q h

/-- C17: over exact arithmetic, after every finite sequence of `wheelEvent`
(any `angleDelta`), `resetZoom`, `fitZoom` (called with an image and a
viewport of positive size) and `setZoom` with a positive argument, every
sprite whose zoom was positive before the sequence has a positive zoom; so if
all sprites start with zoom > 0, all have zoom > 0 afterwards. -/
theorem zoom_stays_positive (as : List ZoomAction) (s : OpenGlWidget)
    (hadm : zoomActionsAdmissible as s) :
    (∀ q, 0 < (s.procs q).zoom → 0 < ((runZoomActions as s).procs q).zoom) ∧
      ((∀ q, 0 < (s.procs q).zoom) → ∀ q, 0 < ((runZoomActions as s).procs q).zoom) := by
  have key : ∀ q, 0 < (s.procs q).zoom → 0 < ((runZoomActions as s).procs q).zoom := by
    intro q
    induction as generalizing s with
    | nil => exact fun h => h
    | cons a rest ih =>
      intro h
      exact ih (a.run s) hadm.2 (ZoomAction_run_zoom a s hadm.1 q h)
  exact ⟨key, fun hall q => key q (hall q)⟩

theorem zoom_stays_positive_witness :
    zoomActionsAdmissible
        [ZoomAction.fit, ZoomAction.set 3, ZoomAction.reset, ZoomAction.wheel (0, -120)]
        selectedSpriteWidget ∧
      0 < (selectedSpriteWidget.procs 0).zoom ∧
      0 < ((runZoomActions
        [ZoomAction.fit, ZoomAction.set 3, ZoomAction.reset, ZoomAction.wheel (0, -120)]
        selectedSpriteWidget).procs 0).zoom := by
  have hadm : zoomActionsAdmissible
      [ZoomAction.fit, ZoomAction.set 3, ZoomAction.reset, ZoomAction.wheel (0, -120)]
      selectedSpriteWidget := by
    simp only [zoomActionsAdmissible, ZoomAction.admissible, and_true]
    exact ⟨⟨by decide, by decide, by decide, by decide⟩, by norm_num⟩
  have h0 : 0 < (selectedSpriteWidget.procs 0).zoom := by
    norm_num [selectedSpriteWidget, exampleSprite]
  exact ⟨hadm, h0, (zoom_stays_positive _ selectedSpriteWidget hadm).1 0 h0⟩

/-! ## Redraw on the timer tick -/

theorem Setter_run_dirty (a : Setter) (s : OpenGlWidget)
    (h : ∀ n, a ≠ Setter.setPixelSize n) : (a.run s).need_to_update = true := by
  cases a with
  | setPixelSize n => exact absurd rfl (h n)
  | _ => rfl

theorem force_update_dirty (s : OpenGlWidget) (h : s.need_to_update = true) :
    (force_update s).signals = s.signals ++ [Signal.update] := by
  unfold force_update
  rw [if_pos h]

/-- C18 fails on the code: starting with the dirty flag clear, the call
`setPixelSize(5)` changes `pixelSize` from 3 to 5 and leaves the flag clear,
so the next tick requests no redraw and the next paint does not run
`update_scene`; after the sibling `setToon(true)` the tick requests the redraw
and the paint runs `update_scene` once. -/
theorem setPixelSize_requests_no_redraw :
    exampleWidget.need_to_update = false ∧ exampleWidget.pixelSize = 3 ∧
      (runSetters [Setter.setPixelSize 5] exampleWidget).pixelSize = 5 ∧
      (runSetters [Setter.setPixelSize 5] exampleWidget).need_to_update = false ∧
      (force_update (runSetters [Setter.setPixelSize 5] exampleWidget)).signals = [] ∧
      (paintGL (force_update (runSetters [Setter.setPixelSize 5] exampleWidget))).2 = 0 ∧
      (force_update (runSetters [Setter.setToon true] exampleWidget)).signals =
        [Signal.update] ∧
      (paintGL (force_update (runSetters [Setter.setToon true] exampleWidget))).2 = 1 := by
  refine ⟨rfl, rfl, rfl, rfl, by decide, ?_, by decide, ?_⟩
  · rw [paintGL_runs]
    rfl
  · rw [paintGL_runs]
    rfl

/-! ## Moving a light -/

theorem update_light_position_lights (p : QVector3D) (s : OpenGlWidget) :
    (update_light_position p s).currentLight = s.currentLight ∧
      ((update_light_position p s).lights s.currentLight).lightPosition =
        (update_light_position p s).lightPosition ∧
      (update_light_position p s).lightPosition.z = s.lightPosition.z ∧
      ∀ q, q ≠ s.currentLight → (update_light_position p s).lights q = s.lights q := by
  refine ⟨rfl, ?_, ?_, ?_⟩
  · simp only [update_light_position, Function.update_same]
  · simp only [update_light_position]
    split_ifs <;> rfl
  · intro q hq
    simp only [update_light_position, Function.update_noteq hq]

theorem pickSprites_lightPosition (mouseX mouseY : ℚ) (s : OpenGlWidget) :
    (pickSprites mouseX mouseY s).lightPosition = s.lightPosition ∧
      (pickSprites mouseX mouseY s).lights = s.lights := by
  have hstep : ∀ (acc : OpenGlWidget × Bool) (pp : ProcPtr),
      (pickSpriteStep mouseX mouseY acc pp).1.lightPosition = acc.1.lightPosition ∧
        (pickSpriteStep mouseX mouseY acc pp).1.lights = acc.1.lights := by
    intro acc pp
    unfold pickSpriteStep
    simp only []
    split_ifs <;> exact ⟨rfl, rfl⟩
  have hfold : ∀ (L : List ProcPtr) (acc : OpenGlWidget × Bool),
      (L.foldl (pickSpriteStep mouseX mouseY) acc).1.lightPosition = acc.1.lightPosition ∧
        (L.foldl (pickSpriteStep mouseX mouseY) acc).1.lights = acc.1.lights := by
    intro L
    induction L with
    | nil => exact fun _ => ⟨rfl, rfl⟩
    | cons pp rest ih =>
      intro acc
      rw [List.foldl_cons]
      exact ⟨(ih _).1.trans (hstep acc pp).1, (ih _).2.trans (hstep acc pp).2⟩
  unfold pickSprites
  split_ifs
  · exact hfold _ _
  · exact ⟨rfl, rfl⟩

theorem miss_click_state :
    (mousePressEvent clickCentre 3 startLight tallLightWidget).lightPosition =
        ⟨-0.5, 0.2, 0.8⟩ ∧
      (mousePressEvent clickCentre 3 startLight tallLightWidget).currentLight = 0 ∧
      (mousePressEvent clickCentre 3 startLight tallLightWidget).lights 0 = startLight := by
  have e : mousePressEvent clickCentre 3 startLight tallLightWidget =
      { pickSprites (screen_to_device 800 600 (400, 300)).1 (screen_to_device 800 600 (400, 300)).2
          (selectLights (screen_to_device 800 600 (400, 300)).1
            (screen_to_device 800 600 (400, 300)).2 ((64 : ℚ) / 800 * 0.3) ((64 : ℚ) / 600 * 0.3)
            (set_all_processors_selected false tallLightWidget)) with
        need_to_update := true } := rfl
  have hsel : selectLights (screen_to_device 800 600 (400, 300)).1
      (screen_to_device 800 600 (400, 300)).2 ((64 : ℚ) / 800 * 0.3) ((64 : ℚ) / 600 * 0.3)
      (set_all_processors_selected false tallLightWidget) =
      { set_all_processors_selected false tallLightWidget with
        lightPosition := ⟨-0.5, 0.2, 0.8⟩ } := by
    simp only [selectLights, set_all_processors_selected, set_processor_selected,
      tallLightWidget, exampleWidget, selectLoop, lightHit, screen_to_device, tallLight,
      startLight, List.foldl_cons, List.foldl_nil]
    norm_num [abs_lt]
  rw [e, hsel]
  refine ⟨?_, ?_, ?_⟩
  · exact (pickSprites_lightPosition _ _ _).1
  · exact (pickSprites_keeps _ _ _).1
  · rw [show ({ pickSprites (screen_to_device 800 600 (400, 300)).1
        (screen_to_device 800 600 (400, 300)).2
        { set_all_processors_selected false tallLightWidget with
          lightPosition := ⟨-0.5, 0.2, 0.8⟩ } with need_to_update := true } : OpenGlWidget).lights
        = tallLightWidget.lights from (pickSprites_lightPosition _ _ _).2]
    rfl

/-- C19 fails on the code: in `addAfterMissWidget` the selected light 2 has
height 0.3, and `mouseMoveEvent` passes that height in the new position, but
`update_light_position` takes `z` from the member `lightPosition`, which the
click left at the position of light 1: after the move light 2 has height
0.8. -/
theorem update_light_position_changes_height :
    addAfterMissWidget.currentLight = 2 ∧ addAfterMissWidget.addLight = true ∧
      (addAfterMissWidget.lights 2).lightPosition.z = 0.3 ∧
      ((mouseMoveEvent moveCentre addAfterMissWidget).lights 2).lightPosition.z = 0.8 ∧
      ((update_light_position ⟨0, 0, 0.3⟩ addAfterMissWidget).lights 2).lightPosition.z
        = 0.8 := by
  obtain ⟨m1, m2, m3⟩ := miss_click_state
  have hcur : addAfterMissWidget.currentLight = 2 := by
    simp only [addAfterMissWidget, set_add_light_true]
  have hadd : addAfterMissWidget.addLight = true := by
    simp only [addAfterMissWidget, set_add_light_true]
  have hpos : addAfterMissWidget.lightPosition = ⟨-0.5, 0.2, 0.8⟩ := by
    simp only [addAfterMissWidget, set_add_light_true]
    exact m1
  have hz : ∀ p, ((update_light_position p addAfterMissWidget).lights 2).lightPosition.z
      = 0.8 := by
    intro p
    obtain ⟨_, k2, k3, _⟩ := update_light_position_lights p addAfterMissWidget
    rw [hcur] at k2
    rw [k2, k3, hpos]
  refine ⟨hcur, hadd, ?_, ?_, hz _⟩
  · simp only [addAfterMissWidget, set_add_light_true, Function.update_same,
      LightSource.copy_settings, m2]
    rw [m2, Function.update_noteq (by decide), m3]
    rfl
  · have hm : mouseMoveEvent moveCentre addAfterMissWidget =
        { update_light_position
            ⟨(screen_to_device addAfterMissWidget.width addAfterMissWidget.height
                moveCentre.localPos).1,
              (screen_to_device addAfterMissWidget.width addAfterMissWidget.height
                moveCentre.localPos).2,
              (addAfterMissWidget.lights addAfterMissWidget.currentLight).lightPosition.z⟩
            addAfterMissWidget with need_to_update := true } := by
      unfold mouseMoveEvent
      simp only [hadd, if_true]
    rw [hm]
    exact hz _

theorem update_light_position_xy (p : QVector3D) (s : OpenGlWidget) :
    ((update_light_position p s).lights s.currentLight).lightPosition.x =
        (if p.x ≥ 1 - (0.3 * (s.laigter.width : ℚ) / s.width) / 2 then
          1 - (0.3 * (s.laigter.width : ℚ) / s.width) / 2
        else if p.x < -1 + (0.3 * (s.laigter.width : ℚ) / s.width) / 2 then
          -1 + (0.3 * (s.laigter.width : ℚ) / s.width) / 2
        else p.x) ∧
      ((update_light_position p s).lights s.currentLight).lightPosition.y =
        (if p.y > 1 - (0.3 * (s.laigter.height : ℚ) / s.height) / 2 then
          1 - (0.3 * (s.laigter.height : ℚ) / s.height) / 2
        else if p.y < -1 + (0.3 * (s.laigter.height : ℚ) / s.height) / 2 then
          -1 + (0.3 * (s.laigter.height : ℚ) / s.height) / 2
        else p.y) := by
  have hw : (s.laigter.width : ℚ) / s.width * 0.3 = 0.3 * (s.laigter.width : ℚ) / s.width := by
    ring
  have hh : (s.laigter.height : ℚ) / s.height * 0.3 =
      0.3 * (s.laigter.height : ℚ) / s.height := by
    ring
  simp only [update_light_position, Function.update_same, hw, hh]
  constructor
  · split_ifs <;> rfl
  · split_ifs <;> rfl

/-- C20: with marker extents `lw = 0.3 * iconW / viewportW <= 2` and
`lh = 0.3 * iconH / viewportH <= 2`, after `update_light_position(p)` the
selected light's x lies in `[-1 + lw/2, 1 - lw/2]` and its y in
`[-1 + lh/2, 1 - lh/2]`, and x (y) is `p.x` (`p.y`) whenever `p.x` (`p.y`)
lies in that range. -/
theorem update_light_position_clamps (p : QVector3D) (s : OpenGlWidget)
    (hw : 0.3 * (s.laigter.width : ℚ) / s.width ≤ 2)
    (hh : 0.3 * (s.laigter.height : ℚ) / s.height ≤ 2) :
    -1 + (0.3 * (s.laigter.width : ℚ) / s.width) / 2 ≤
        ((update_light_position p s).lights s.currentLight).lightPosition.x ∧
      ((update_light_position p s).lights s.currentLight).lightPosition.x ≤
        1 - (0.3 * (s.laigter.width : ℚ) / s.width) / 2 ∧
      -1 + (0.3 * (s.laigter.height : ℚ) / s.height) / 2 ≤
        ((update_light_position p s).lights s.currentLight).lightPosition.y ∧
      ((update_light_position p s).lights s.currentLight).lightPosition.y ≤
        1 - (0.3 * (s.laigter.height : ℚ) / s.height) / 2 ∧
      (-1 + (0.3 * (s.laigter.width : ℚ) / s.width) / 2 ≤ p.x →
        p.x ≤ 1 - (0.3 * (s.laigter.width : ℚ) / s.width) / 2 →
        ((update_light_position p s).lights s.currentLight).lightPosition.x = p.x) ∧
      (-1 + (0.3 * (s.laigter.height : ℚ) / s.height) / 2 ≤ p.y →
        p.y ≤ 1 - (0.3 * (s.laigter.height : ℚ) / s.height) / 2 →
        ((update_light_position p s).lights s.currentLight).lightPosition.y = p.y) ∧
      (update_light_position p s).currentLight = s.currentLight := by
  obtain ⟨hx, hy⟩ := update_light_position_xy p s
  rw [hx, hy]
  generalize 0.3 * (s.laigter.width : ℚ) / s.width = lw at hw ⊢
  generalize 0.3 * (s.laigter.height : ℚ) / s.height = lh at hh ⊢
  refine ⟨?_, ?_, ?_, ?_, ?_, ?_, rfl⟩
  · split_ifs <;> linarith
  · split_ifs <;> linarith
  · split_ifs <;> linarith
  · split_ifs <;> linarith
  · intro h1 h2
    split_ifs <;> linarith
  · intro h1 h2
    split_ifs <;> linarith

theorem update_light_position_clamps_witness :
    0.3 * (exampleWidget.laigter.width : ℚ) / exampleWidget.width ≤ 2 ∧
      0.3 * (exampleWidget.laigter.height : ℚ) / exampleWidget.height ≤ 2 ∧
      ((update_light_position ⟨5, 0, 0⟩ exampleWidget).lights
          exampleWidget.currentLight).lightPosition.x ≤
        1 - (0.3 * (exampleWidget.laigter.width : ℚ) / exampleWidget.width) / 2 :=
  ⟨by norm_num [exampleWidget], by norm_num [exampleWidget],
    (update_light_position_clamps ⟨5, 0, 0⟩ exampleWidget (by norm_num [exampleWidget])
      (by norm_num [exampleWidget])).2.1⟩

/-! ## Sprite picking -/

theorem pickSpriteStep_eq (mouseX mouseY : ℚ) (s : OpenGlWidget) (b : Bool) (pp : ProcPtr) :
    pickSpriteStep mouseX mouseY (s, b) pp =
      ({ s with
          procs := Function.update s.procs pp (withDragOffset mouseX mouseY (s.procs pp))
          signals := s.signals ++
            (if spriteHit mouseX mouseY s pp ∧ b = false
              then [Signal.processor_selected pp true] else []) },
        b || decide (spriteHit mouseX mouseY s pp)) := by
  by_cases hA : |mouseX - (s.procs pp).position.x| <
      (if (s.procs pp).tile_x then 2
        else (s.procs pp).zoom * (s.procs pp).texture.width / s.width) <;>
  by_cases hB : |mouseY - (s.procs pp).position.y| <
      (if (s.procs pp).tile_y then 2
        else (s.procs pp).zoom * (s.procs pp).texture.height / s.height) <;>
  cases b <;>
  simp [pickSpriteStep, spriteHit, set_processor_selected, withDragOffset, hA, hB]

theorem spriteHit_step (mouseX mouseY : ℚ) (s : OpenGlWidget) (pp q : ProcPtr)
    (sig : List Signal) :
    spriteHit mouseX mouseY
        { s with
          procs := Function.update s.procs pp (withDragOffset mouseX mouseY (s.procs pp))
          signals := sig } q ↔
      spriteHit mouseX mouseY s q := by
  by_cases h : q = pp
  · subst h
    simp only [spriteHit, Function.update_same, withDragOffset]
  · simp only [spriteHit, Function.update_noteq h]

theorem withDragOffset_idem (mouseX mouseY : ℚ) (p : ImageProcessor) :
    withDragOffset mouseX mouseY (withDragOffset mouseX mouseY p) =
      withDragOffset mouseX mouseY p := rfl

theorem pickSprite_fold_spec (mouseX mouseY : ℚ) (L : List ProcPtr) (s : OpenGlWidget)
    (b : Bool) :
    L.foldl (pickSpriteStep mouseX mouseY) (s, b) =
      ({ s with
          procs := fun q => if q ∈ L then withDragOffset mouseX mouseY (s.procs q) else s.procs q
          signals := s.signals ++
            (if b = false then
              ((L.find? (fun q => decide (spriteHit mouseX mouseY s q))).toList.map
                (fun q => Signal.processor_selected q true))
            else []) },
        b || (L.find? (fun q => decide (spriteHit mouseX mouseY s q))).isSome) := by
  induction L generalizing s b with
  | nil => cases b <;> simp
  | cons pp rest ih =>
    rw [List.foldl_cons, pickSpriteStep_eq, ih]
    have hP : (fun q => decide (spriteHit mouseX mouseY
        { s with
          procs := Function.update s.procs pp (withDragOffset mouseX mouseY (s.procs pp))
          signals := s.signals ++
            (if spriteHit mouseX mouseY s pp ∧ b = false
              then [Signal.processor_selected pp true] else []) } q)) =
        fun q => decide (spriteHit mouseX mouseY s q) := by
      funext q
      exact decide_eq_decide.mpr (spriteHit_step mouseX mouseY s pp q _)
    rw [hP]
    have hprocs : (fun q => if q ∈ rest then
          withDragOffset mouseX mouseY
            (Function.update s.procs pp (withDragOffset mouseX mouseY (s.procs pp)) q)
        else Function.update s.procs pp (withDragOffset mouseX mouseY (s.procs pp)) q) =
        fun q => if q ∈ pp :: rest then withDragOffset mouseX mouseY (s.procs q)
          else s.procs q := by
      funext q
      by_cases h : q = pp
      · subst h
        simp only [Function.update_same, withDragOffset_idem, List.mem_cons, true_or, if_true,
          ite_self]
      · simp only [Function.update_noteq h, List.mem_cons, h, false_or]
    by_cases hit : spriteHit mouseX mouseY s pp
    · cases b <;>
        simp [hit, List.find?_cons_of_pos, hprocs]
    · cases b <;>
        simp [hit, List.find?_cons_of_neg, hprocs]

/-- What the sprite search does when no light is selected: every sprite of
the list gets its drag offset, `set_enabled_light_controls(false)` is
emitted, and `processor_selected(pp, true)` is emitted for the first sprite
from the end of the list that passes the bounds test, if there is one. -/
theorem pickSprites_spec (mouseX mouseY : ℚ) (s : OpenGlWidget)
    (h : s.lightSelected = false) :
    pickSprites mouseX mouseY s =
      { s with
        procs := fun q =>
          if q ∈ s.processorList then withDragOffset mouseX mouseY (s.procs q) else s.procs q
        signals := s.signals ++ [Signal.set_enabled_light_controls false] ++
          (s.processorList.reverse.find? (fun q => decide (spriteHit mouseX mouseY s q))).toList.map
            (fun q => Signal.processor_selected q true) } := by
  unfold pickSprites
  rw [if_pos (by rw [h]; rfl), pickSprite_fold_spec]
  simp only [set_enabled_light_controls, spriteHit, List.mem_reverse, if_true]

theorem set_processor_selected_fold_signals (b : Bool) (L : List ProcPtr) (s : OpenGlWidget) :
    L.foldl (fun st pp => set_processor_selected pp b st) s =
      { s with signals := s.signals ++ L.map (fun q => Signal.processor_selected q b) } := by
  induction L generalizing s with
  | nil => simp
  | cons pp rest ih =>
    rw [List.foldl_cons, ih]
    simp [set_processor_selected]

theorem selectLoop_frame (mouseX mouseY lightWidth lightHeight : ℚ) (L : List LightPtr)
    (s : OpenGlWidget) :
    ∃ (lp : QVector3D) (ls : Bool) (cl : LightPtr) (extra : List Signal),
      selectLoop mouseX mouseY lightWidth lightHeight L s =
        { s with lightPosition := lp, lightSelected := ls, currentLight := cl,
                 signals := s.signals ++ extra } ∧
      ∀ x ∈ extra, Signal.isLightChange x = true := by
  induction L generalizing s with
  | nil => exact ⟨s.lightPosition, s.lightSelected, s.currentLight, [], by simp [selectLoop], by simp⟩
  | cons a rest ih =>
    by_cases hit : lightHit mouseX mouseY lightWidth lightHeight
        { s with lightPosition := (s.lights a).lightPosition }
    · refine ⟨(s.lights a).lightPosition, true, a, [Signal.selectedLightChanged a], ?_, ?_⟩
      · simp only [selectLoop, if_pos hit, select_light]
      · intro x hx
        rw [List.mem_singleton] at hx
        subst hx
        rfl
    · obtain ⟨lp, ls, cl, extra, h1, h2⟩ :=
        ih { s with lightPosition := (s.lights a).lightPosition }
      refine ⟨lp, ls, cl, extra, ?_, h2⟩
      simp only [selectLoop, if_neg hit]
      rw [h1]

theorem selectLoopProcs_frame (mouseX mouseY lightWidth lightHeight : ℚ) (L : List ProcPtr)
    (s : OpenGlWidget) :
    ∃ (lp : QVector3D) (ls : Bool) (cl : LightPtr) (cll : ListPtr) (extra : List Signal),
      selectLoopProcs mouseX mouseY lightWidth lightHeight L s =
        { s with lightPosition := lp, lightSelected := ls, currentLight := cl,
                 currentLightList := cll, signals := s.signals ++ extra } ∧
      ∀ x ∈ extra, Signal.isLightChange x = true := by
  induction L generalizing s with
  | nil =>
    exact ⟨s.lightPosition, s.lightSelected, s.currentLight, s.currentLightList, [],
      by simp [selectLoopProcs], by simp⟩
  | cons pp rest ih =>
    obtain ⟨lp, ls, cl, extra, h1, h2⟩ := selectLoop_frame mouseX mouseY lightWidth lightHeight
      (s.lists (s.procs pp).light_list_ptr)
      { s with currentLightList := (s.procs pp).light_list_ptr }
    by_cases hsel : ls = true
    · refine ⟨lp, ls, cl, (s.procs pp).light_list_ptr, extra, ?_, h2⟩
      simp only [selectLoopProcs]
      rw [h1, if_pos hsel]
    · obtain ⟨lp', ls', cl', cll', extra', k1, k2⟩ := ih
        { s with lightPosition := lp, lightSelected := ls, currentLight := cl,
                 currentLightList := (s.procs pp).light_list_ptr,
                 signals := s.signals ++ extra }
      refine ⟨lp', ls', cl', cll', extra ++ extra', ?_, ?_⟩
      · simp only [selectLoopProcs]
        rw [h1, if_neg hsel, k1]
        simp only [List.append_assoc]
      · intro x hx
        rcases List.mem_append.mp hx with h | h
        · exact h2 x h
        · exact k2 x h

theorem selectLights_frame (mouseX mouseY lightWidth lightHeight : ℚ) (s : OpenGlWidget) :
    ∃ (lp : QVector3D) (ls : Bool) (cl : LightPtr) (cll : ListPtr) (extra : List Signal),
      selectLights mouseX mouseY lightWidth lightHeight s =
        { s with lightPosition := lp, lightSelected := ls, currentLight := cl,
                 currentLightList := cll, signals := s.signals ++ extra } ∧
      ∀ x ∈ extra, Signal.isLightChange x = true := by
  unfold selectLights
  by_cases hs : s.sample_light_list_used = true
  · rw [if_pos hs]
    obtain ⟨lp, ls, cl, extra, h1, h2⟩ := selectLoop_frame mouseX mouseY lightWidth lightHeight
      (s.lists s.sampleLightList) s
    exact ⟨lp, ls, cl, s.currentLightList, extra, h1, h2⟩
  · rw [if_neg hs]
    exact selectLoopProcs_frame mouseX mouseY lightWidth lightHeight s.processorList s

/-- Sprite picking on a left click, as the code does it.  With add mode off
and no light selected after the press (no light was hit), the press emits,
after the signals of the deselection and of the light search, none of which
selects a sprite, `set_enabled_light_controls(false)` and then
`processor_selected(q, true)` for at most one sprite: the first from the end
of the list that passes the test `spriteHit`; and every sprite of the list
has its drag offset set to mouse - position, the other sprites being left as
they were. -/
theorem mousePress_picks_last_sprite (event : QMouseEvent) (l : LightPtr)
    (fresh : LightSource) (s : OpenGlWidget)
    (hleft : event.leftButton = true) (hadd : s.addLight = false)
    (hmiss : (mousePressEvent event l fresh s).lightSelected = false) :
    ∃ before : List Signal,
      (∀ x ∈ before, ∀ q, x ≠ Signal.processor_selected q true) ∧
      (mousePressEvent event l fresh s).signals =
        s.signals ++ before ++ [Signal.set_enabled_light_controls false] ++
          (s.processorList.reverse.find? (fun q => decide (spriteHit
            (screen_to_device s.width s.height event.localPos).1
            (screen_to_device s.width s.height event.localPos).2 s q))).toList.map
            (fun q => Signal.processor_selected q true) ∧
      (mousePressEvent event l fresh s).procs = fun q =>
        if q ∈ s.processorList then
          withDragOffset (screen_to_device s.width s.height event.localPos).1
            (screen_to_device s.width s.height event.localPos).2 (s.procs q)
        else s.procs q := by
  obtain ⟨op, hb⟩ := mousePressBrush_eq event s
  have hunf : mousePressEvent event l fresh s =
      mousePressLeft (screen_to_device s.width s.height event.localPos).1
        (screen_to_device s.width s.height event.localPos).2
        ((s.laigter.width : ℚ) / s.width * 0.3) ((s.laigter.height : ℚ) / s.height * 0.3)
        event.ctrl l fresh { s with oldPos := op } := by
    unfold mousePressEvent
    simp only []
    rw [if_pos (by rw [hleft]; rfl), hb]
  obtain ⟨d, hd, hs1⟩ : ∃ d : List Signal,
      (∀ x ∈ d, ∀ q, x ≠ Signal.processor_selected q true) ∧
      (if (!event.ctrl) = true then set_all_processors_selected false { s with oldPos := op }
        else { s with oldPos := op }) =
        { s with oldPos := op, signals := s.signals ++ d } := by
    by_cases hc : (!event.ctrl) = true
    · rw [if_pos hc]
      refine ⟨s.processorList.map (fun q => Signal.processor_selected q false), ?_, ?_⟩
      · intro x hx q
        obtain ⟨a, _, ha⟩ := List.mem_map.mp hx
        rw [← ha]
        simp
      · exact set_processor_selected_fold_signals false s.processorList { s with oldPos := op }
    · rw [if_neg hc]
      exact ⟨[], by simp, by simp⟩
  obtain ⟨lp, ls, cl, cll, extra, hsel, hextra⟩ := selectLights_frame
    (screen_to_device s.width s.height event.localPos).1
    (screen_to_device s.width s.height event.localPos).2
    ((s.laigter.width : ℚ) / s.width * 0.3) ((s.laigter.height : ℚ) / s.height * 0.3)
    { s with oldPos := op, signals := s.signals ++ d }
  have hunf2 : mousePressEvent event l fresh s =
      { pickSprites (screen_to_device s.width s.height event.localPos).1
          (screen_to_device s.width s.height event.localPos).2
          { s with oldPos := op, lightPosition := lp, lightSelected := ls, currentLight := cl,
                   currentLightList := cll, signals := s.signals ++ d ++ extra } with
        need_to_update := true } := by
    rw [hunf]
    unfold mousePressLeft
    rw [if_neg (by rw [hadd]; exact Bool.false_ne_true)]
    simp only []
    rw [hs1, hsel]
  have hls : ls = false := by
    rw [hunf2] at hmiss
    exact (pickSprites_keeps _ _ _).2.1.symm.trans hmiss
  subst hls
  rw [hunf2, pickSprites_spec _ _ _ rfl]
  refine ⟨d ++ extra, ?_, ?_, ?_⟩
  · intro x hx q
    rcases List.mem_append.mp hx with h | h
    · exact hd x h q
    · intro hq
      have := hextra x h
      rw [hq] at this
      exact Bool.false_ne_true this
  · simp only [spriteHit, List.append_assoc]
  · rfl

/-- The general statement at work: in `twoSpriteWidget` both sprites contain
the device point (0.005, 0) of the click at pixel (402, 300); sprite 1, the
last of the list, is the one selected, and both get the drag offset
(0.005, 0, 0). -/
theorem mousePress_picks_last_sprite_example :
    (mousePressEvent clickNearCentre 2 startLight twoSpriteWidget).signals =
        [Signal.processor_selected 0 false, Signal.processor_selected 1 false,
          Signal.set_enabled_light_controls false, Signal.processor_selected 1 true] ∧
      ((mousePressEvent clickNearCentre 2 startLight twoSpriteWidget).procs 0).offset =
        ⟨0.005, 0, 0⟩ ∧
      ((mousePressEvent clickNearCentre 2 startLight twoSpriteWidget).procs 1).offset =
        ⟨0.005, 0, 0⟩ := by
  have e : mousePressEvent clickNearCentre 2 startLight twoSpriteWidget =
      { pickSprites (screen_to_device 800 600 (402, 300)).1
          (screen_to_device 800 600 (402, 300)).2
          (selectLights (screen_to_device 800 600 (402, 300)).1
            (screen_to_device 800 600 (402, 300)).2 ((64 : ℚ) / 800 * 0.3)
            ((64 : ℚ) / 600 * 0.3)
            (set_all_processors_selected false twoSpriteWidget)) with
        need_to_update := true } := rfl
  have hsel : selectLights (screen_to_device 800 600 (402, 300)).1
      (screen_to_device 800 600 (402, 300)).2 ((64 : ℚ) / 800 * 0.3) ((64 : ℚ) / 600 * 0.3)
      (set_all_processors_selected false twoSpriteWidget) =
      { set_all_processors_selected false twoSpriteWidget with
        lightPosition := ⟨-0.5, 0.2, 0.3⟩ } := by
    simp only [selectLights, set_all_processors_selected, set_processor_selected,
      twoSpriteWidget, exampleWidget, selectLoop, lightHit, screen_to_device, secondLight,
      startLight, List.foldl_cons, List.foldl_nil]
    norm_num [abs_lt]
  rw [e, hsel, pickSprites_spec _ _ _ rfl]
  refine ⟨?_, ?_, ?_⟩
  · simp only [set_all_processors_selected, set_processor_selected, twoSpriteWidget,
      exampleWidget, smallSprite, wideSprite, exampleSprite, spriteHit, screen_to_device,
      List.foldl_cons, List.foldl_nil, List.reverse_cons, List.reverse_nil, List.nil_append,
      List.singleton_append]
    norm_num [abs_lt, List.find?]
  · simp only [set_all_processors_selected, set_processor_selected, twoSpriteWidget,
      exampleWidget, smallSprite, wideSprite, exampleSprite, withDragOffset, screen_to_device,
      List.foldl_cons, List.foldl_nil]
    norm_num
  · simp only [set_all_processors_selected, set_processor_selected, twoSpriteWidget,
      exampleWidget, smallSprite, wideSprite, exampleSprite, withDragOffset, screen_to_device,
      List.foldl_cons, List.foldl_nil]
    norm_num

/-- The left click at pixel (40, 300) on the example widget with `p` as its
only sprite: no light is hit, the light search leaves the position of the
last light it tested in `lightPosition`, and the sprite search is made. -/
theorem click_left_edge_state (p : ImageProcessor) :
    mousePressEvent clickLeftEdge 2 startLight { exampleWidget with procs := fun _ => p } =
      { pickSprites (screen_to_device 800 600 (40, 300)).1 (screen_to_device 800 600 (40, 300)).2
          { set_all_processors_selected false { exampleWidget with procs := fun _ => p } with
            lightPosition := ⟨-0.5, 0.2, 0.3⟩ } with
        need_to_update := true } := by
  have e : mousePressEvent clickLeftEdge 2 startLight { exampleWidget with procs := fun _ => p } =
      { pickSprites (screen_to_device 800 600 (40, 300)).1 (screen_to_device 800 600 (40, 300)).2
          (selectLights (screen_to_device 800 600 (40, 300)).1
            (screen_to_device 800 600 (40, 300)).2 ((64 : ℚ) / 800 * 0.3) ((64 : ℚ) / 600 * 0.3)
            (set_all_processors_selected false { exampleWidget with procs := fun _ => p })) with
        need_to_update := true } := rfl
  have hsel : selectLights (screen_to_device 800 600 (40, 300)).1
      (screen_to_device 800 600 (40, 300)).2 ((64 : ℚ) / 800 * 0.3) ((64 : ℚ) / 600 * 0.3)
      (set_all_processors_selected false { exampleWidget with procs := fun _ => p }) =
      { set_all_processors_selected false { exampleWidget with procs := fun _ => p } with
        lightPosition := ⟨-0.5, 0.2, 0.3⟩ } := by
    simp only [selectLights, set_all_processors_selected, set_processor_selected,
      exampleWidget, selectLoop, lightHit, screen_to_device, secondLight,
      startLight, List.foldl_cons, List.foldl_nil]
    norm_num [abs_lt]
  rw [e, hsel]

theorem click_left_edge_flag (p : ImageProcessor) :
    (mousePressEvent clickLeftEdge 2 startLight
        { exampleWidget with procs := fun _ => p }).lightSelected = false := by
  rw [click_left_edge_state]
  exact (pickSprites_keeps _ _ _).2.1

/-- C21 fails on the code for a tiled sprite whose pan is not near 0.  In
`pannedTiledWidget` the only sprite is tiled along x with pan (1.25, 0); add
mode is off and the left click at pixel (40, 300), device point (-0.9, 0),
hits no light.  The point is within the sprite's bounds as the claim gives
them (any x on the tiled axis, `|my - pos.y| < zoom * texH / viewportH`), and
the sprite is drawn there: its draw transform takes the point (-0.9, 0) of
the quad to the click point, the translation on x being 0 and the scale 1.
The code tests `|mx - pos.x| < 2` on the tiled axis, which fails, and the
press emits no `processor_selected(0, true)`.  With the same sprite at pan 0
(`centredTiledWidget`) the same click selects it. -/
theorem sprite_pick_misses_panned_tiled_sprite :
    clickLeftEdge.leftButton = true ∧ pannedTiledWidget.addLight = false ∧
      pannedTiledWidget.processorList = [0] ∧ (pannedTiledWidget.procs 0).tile_x = true ∧
      screen_to_device pannedTiledWidget.width pannedTiledWidget.height clickLeftEdge.localPos =
        (-0.9, 0) ∧
      |(0 : ℚ) - (pannedTiledWidget.procs 0).position.y| <
        (pannedTiledWidget.procs 0).zoom * (pannedTiledWidget.procs 0).texture.height /
          pannedTiledWidget.height ∧
      (update_scene_sprite pannedTiledWidget 0).2.transform.map (-0.9, 0) = (-0.9, 0) ∧
      (mousePressEvent clickLeftEdge 2 startLight pannedTiledWidget).lightSelected = false ∧
      ¬ spriteHit (-0.9) 0 pannedTiledWidget 0 ∧
      (mousePressEvent clickLeftEdge 2 startLight pannedTiledWidget).signals =
        [Signal.processor_selected 0 false, Signal.set_enabled_light_controls false] ∧
      (mousePressEvent clickLeftEdge 2 startLight centredTiledWidget).signals =
        [Signal.processor_selected 0 false, Signal.set_enabled_light_controls false,
          Signal.processor_selected 0 true] := by
  refine ⟨rfl, rfl, rfl, rfl, ?_, ?_, ?_, click_left_edge_flag pannedTiledSprite, ?_, ?_, ?_⟩
  · norm_num [screen_to_device, pannedTiledWidget, exampleWidget, clickLeftEdge]
  · norm_num [pannedTiledWidget, pannedTiledSprite, exampleSprite, exampleWidget]
  · norm_num [update_scene_sprite, setImage, spriteTransform, QMatrix4x4.map,
      QMatrix4x4.identity, QMatrix4x4.translate, QMatrix4x4.scale, pannedTiledWidget,
      pannedTiledSprite, exampleSprite, exampleWidget]
  · norm_num [spriteHit, pannedTiledWidget, pannedTiledSprite, exampleSprite, exampleWidget,
      abs_lt]
  · unfold pannedTiledWidget
    rw [click_left_edge_state, pickSprites_spec _ _ _ rfl]
    simp only [set_all_processors_selected, set_processor_selected, exampleWidget,
      pannedTiledSprite, exampleSprite, spriteHit, screen_to_device, List.foldl_cons,
      List.foldl_nil, List.reverse_cons, List.reverse_nil, List.nil_append]
    norm_num [abs_lt, List.find?]
  · unfold centredTiledWidget
    rw [click_left_edge_state, pickSprites_spec _ _ _ rfl]
    simp only [set_all_processors_selected, set_processor_selected, exampleWidget,
      exampleSprite, spriteHit, screen_to_device, List.foldl_cons,
      List.foldl_nil, List.reverse_cons, List.reverse_nil, List.nil_append]
    norm_num [abs_lt, List.find?]

/-! ## What is cropped is what is drawn -/

/-- The screen image of a quad point under the draw transform that the
full-canvas export computes for a sprite that is not tiled, in a viewport of
positive size: an affine map of the quad onto the crop footprint. -/
theorem drawn_point_in_footprint (w h : ℤ) (p : ImageProcessor) (hw : 0 < w) (hh : 0 < h)
    (hx : p.tile_x = false) (hy : p.tile_y = false) (u v : ℚ) :
    device_to_screen w h
        ((spriteTransform ((p.texture.width : ℚ) / w) ((p.texture.height : ℚ) / h) p).transform.map
          (u, v)) =
      (footprintXi w p + (u + 1) / 2 * (footprintXf w p - footprintXi w p),
        footprintYi h p + (1 - v) / 2 * (footprintYf h p - footprintYi h p)) := by
  have hw' : (w : ℚ) ≠ 0 := by exact_mod_cast hw.ne'
  have hh' : (h : ℚ) ≠ 0 := by exact_mod_cast hh.ne'
  simp only [device_to_screen, spriteTransform, QMatrix4x4.map, QMatrix4x4.identity,
    QMatrix4x4.translate, QMatrix4x4.scale, footprintXi, footprintXf, footprintYi, footprintYf,
    hx, hy, Bool.not_false, if_true]
  simp only [Bool.false_eq_true, if_false]
  refine Prod.ext ?_ ?_
  · simp only []
    field_simp
    ring
  · simp only []
    field_simp
    ring

/-- The affine maps of `drawn_point_in_footprint` send the quad onto the
rectangle between the two corners, when the corners are in order. -/
theorem affine_quad_image (a b c d : ℚ) (hab : a ≤ b) (hcd : c ≤ d) :
    Set.image (fun q : ℚ × ℚ => (a + (q.1 + 1) / 2 * (b - a), c + (1 - q.2) / 2 * (d - c)))
        (Set.Icc (-1 : ℚ) 1 ×ˢ Set.Icc (-1 : ℚ) 1) =
      Set.Icc a b ×ˢ Set.Icc c d := by
  ext ⟨x, y⟩
  simp only [Set.mem_image, Set.mem_prod, Set.mem_Icc, Prod.mk.injEq, Prod.exists]
  constructor
  · rintro ⟨u, v, ⟨⟨hu1, hu2⟩, hv1, hv2⟩, rfl, rfl⟩
    refine ⟨⟨?_, ?_⟩, ?_, ?_⟩ <;> nlinarith
  · rintro ⟨⟨hx1, hx2⟩, hy1, hy2⟩
    have ex : ∃ u : ℚ, (-1 ≤ u ∧ u ≤ 1) ∧ a + (u + 1) / 2 * (b - a) = x := by
      rcases hab.eq_or_lt with h | h
      · refine ⟨-1, ⟨le_refl _, by norm_num⟩, ?_⟩
        subst h
        have : x = a := le_antisymm hx2 hx1
        rw [this]
        ring
      · have hpos : 0 < b - a := sub_pos.mpr h
        refine ⟨2 * (x - a) / (b - a) - 1, ⟨?_, ?_⟩, ?_⟩
        · have : 0 ≤ 2 * (x - a) / (b - a) := div_nonneg (by linarith) hpos.le
          linarith
        · have : 2 * (x - a) / (b - a) ≤ 2 := by
            rw [div_le_iff₀ hpos]
            linarith
          linarith
        · field_simp
          ring
    have ey : ∃ v : ℚ, (-1 ≤ v ∧ v ≤ 1) ∧ c + (1 - v) / 2 * (d - c) = y := by
      rcases hcd.eq_or_lt with h | h
      · refine ⟨1, ⟨by norm_num, le_refl _⟩, ?_⟩
        subst h
        have : y = c := le_antisymm hy2 hy1
        rw [this]
        ring
      · have hpos : 0 < d - c := sub_pos.mpr h
        refine ⟨1 - 2 * (y - c) / (d - c), ⟨?_, ?_⟩, ?_⟩
        · have : 2 * (y - c) / (d - c) ≤ 2 := by
            rw [div_le_iff₀ hpos]
            linarith
          linarith
        · have : 0 ≤ 2 * (y - c) / (d - c) := div_nonneg (by linarith) hpos.le
          linarith
        · field_simp
          ring
    obtain ⟨u, hu, hux⟩ := ex
    obtain ⟨v, hv, hvy⟩ := ey
    exact ⟨u, v, ⟨hu, hv⟩, hux, hvy⟩

/-- C22: what is cropped is what is drawn.  For a sprite that is not tiled,
in a viewport of positive width and height, the transform that the
full-canvas export uploads for the sprite is the draw transform with the
ratios sprite texture / viewport that `setImage` has just stored, and under
it followed by `device_to_screen` the corner (-1, 1) of the quad goes to
(xi, yi) and the corner (1, -1) to (xf, yf), the values of the crop before
the conversion to `int`; every point (u, v) goes to the point of the
footprint with the same relative position; and with zoom and texture size
not negative the image of the quad [-1, 1]^2 is the rectangle
[xi, xf] x [yi, yf].  The crop bounds of the round are computed from the
truncations of these four values. -/
theorem crop_footprint_is_drawn_quad (s : OpenGlWidget) (r : CropRect)
    (ts : List DrawTransform) (pp : ProcPtr) (hw : 0 < s.width) (hh : 0 < s.height)
    (hx : (s.procs pp).tile_x = false) (hy : (s.procs pp).tile_y = false) :
    (previewFullStep (s, r, ts) pp).2.2 =
        ts ++ [spriteTransform (((s.procs pp).texture.width : ℚ) / s.width)
          (((s.procs pp).texture.height : ℚ) / s.height) (s.procs pp)] ∧
      (previewFullStep (s, r, ts) pp).2.1 = cropStep s.width s.height r (s.procs pp) ∧
      xi s.width (s.procs pp) = truncToInt (footprintXi s.width (s.procs pp)) ∧
      xf s.width (s.procs pp) = truncToInt (footprintXf s.width (s.procs pp)) ∧
      yi s.height (s.procs pp) = truncToInt (footprintYi s.height (s.procs pp)) ∧
      yf s.height (s.procs pp) = truncToInt (footprintYf s.height (s.procs pp)) ∧
      device_to_screen s.width s.height
          ((spriteTransform (((s.procs pp).texture.width : ℚ) / s.width)
            (((s.procs pp).texture.height : ℚ) / s.height) (s.procs pp)).transform.map (-1, 1)) =
        (footprintXi s.width (s.procs pp), footprintYi s.height (s.procs pp)) ∧
      device_to_screen s.width s.height
          ((spriteTransform (((s.procs pp).texture.width : ℚ) / s.width)
            (((s.procs pp).texture.height : ℚ) / s.height) (s.procs pp)).transform.map (1, -1)) =
        (footprintXf s.width (s.procs pp), footprintYf s.height (s.procs pp)) ∧
      (∀ u v : ℚ, device_to_screen s.width s.height
          ((spriteTransform (((s.procs pp).texture.width : ℚ) / s.width)
            (((s.procs pp).texture.height : ℚ) / s.height) (s.procs pp)).transform.map (u, v)) =
        (footprintXi s.width (s.procs pp) +
            (u + 1) / 2 * (footprintXf s.width (s.procs pp) - footprintXi s.width (s.procs pp)),
          footprintYi s.height (s.procs pp) +
            (1 - v) / 2 *
              (footprintYf s.height (s.procs pp) - footprintYi s.height (s.procs pp)))) ∧
      (0 ≤ (s.procs pp).zoom → 0 ≤ (s.procs pp).texture.width →
        0 ≤ (s.procs pp).texture.height →
        Set.image (fun q : ℚ × ℚ => device_to_screen s.width s.height
            ((spriteTransform (((s.procs pp).texture.width : ℚ) / s.width)
              (((s.procs pp).texture.height : ℚ) / s.height) (s.procs pp)).transform.map q))
            (Set.Icc (-1 : ℚ) 1 ×ˢ Set.Icc (-1 : ℚ) 1) =
          Set.Icc (footprintXi s.width (s.procs pp)) (footprintXf s.width (s.procs pp)) ×ˢ
            Set.Icc (footprintYi s.height (s.procs pp))
              (footprintYf s.height (s.procs pp))) := by
  have hpt := drawn_point_in_footprint s.width s.height (s.procs pp) hw hh hx hy
  refine ⟨rfl, (previewFullStep_fields (s, r, ts) pp).1, rfl, rfl, rfl, rfl, ?_, ?_, hpt, ?_⟩
  · rw [hpt]
    refine Prod.ext ?_ ?_ <;> simp only [] <;> ring
  · rw [hpt]
    refine Prod.ext ?_ ?_ <;> simp only [] <;> ring
  · intro hz htw hth
    have htw' : (0 : ℚ) ≤ ((s.procs pp).texture.width : ℚ) := by exact_mod_cast htw
    have hth' : (0 : ℚ) ≤ ((s.procs pp).texture.height : ℚ) := by exact_mod_cast hth
    have hX : footprintXi s.width (s.procs pp) ≤ footprintXf s.width (s.procs pp) := by
      have : 0 ≤ ((s.procs pp).texture.width : ℚ) / 2.0 * (s.procs pp).zoom :=
        mul_nonneg (div_nonneg htw' (by norm_num)) hz
      simp only [footprintXi, footprintXf]
      linarith
    have hY : footprintYi s.height (s.procs pp) ≤ footprintYf s.height (s.procs pp) := by
      have : 0 ≤ ((s.procs pp).texture.height : ℚ) / 2.0 * (s.procs pp).zoom :=
        mul_nonneg (div_nonneg hth' (by norm_num)) hz
      simp only [footprintYi, footprintYf]
      linarith
    have hf : (fun q : ℚ × ℚ => device_to_screen s.width s.height
        ((spriteTransform (((s.procs pp).texture.width : ℚ) / s.width)
          (((s.procs pp).texture.height : ℚ) / s.height) (s.procs pp)).transform.map q)) =
        fun q : ℚ × ℚ => (footprintXi s.width (s.procs pp) +
            (q.1 + 1) / 2 * (footprintXf s.width (s.procs pp) - footprintXi s.width (s.procs pp)),
          footprintYi s.height (s.procs pp) +
            (1 - q.2) / 2 *
              (footprintYf s.height (s.procs pp) - footprintYi s.height (s.procs pp))) := by
      funext q
      exact hpt q.1 q.2
    rw [hf]
    exact affine_quad_image _ _ _ _ hX hY

theorem crop_footprint_is_drawn_quad_witness :
    0 < pannedWidget.width ∧ 0 < pannedWidget.height ∧
      (pannedWidget.procs 0).tile_x = false ∧ (pannedWidget.procs 0).tile_y = false ∧
      device_to_screen 800 600
          ((spriteTransform ((64 : ℚ) / 800) ((32 : ℚ) / 600) pannedSprite).transform.map
            (-1, 1)) =
        (footprintXi 800 pannedSprite, footprintYi 600 pannedSprite) ∧
      device_to_screen 800 600
          ((spriteTransform ((64 : ℚ) / 800) ((32 : ℚ) / 600) pannedSprite).transform.map
            (1, -1)) =
        (footprintXf 800 pannedSprite, footprintYf 600 pannedSprite) ∧
      (footprintXi 800 pannedSprite, footprintYi 600 pannedSprite) = (436, 418) ∧
      (footprintXf 800 pannedSprite, footprintYf 600 pannedSprite) = (564, 482) :=
  ⟨by decide, by decide, rfl, rfl,
    (crop_footprint_is_drawn_quad pannedWidget ⟨800, 0, 600, 0⟩ [] 0 (by decide) (by decide)
      rfl rfl).2.2.2.2.2.2.1,
    (crop_footprint_is_drawn_quad pannedWidget ⟨800, 0, 600, 0⟩ [] 0 (by decide) (by decide)
      rfl rfl).2.2.2.2.2.2.2.1,
    by norm_num [footprintXi, footprintYi, pannedSprite, exampleSprite],
    by norm_num [footprintXf, footprintYf, pannedSprite, exampleSprite]⟩

end Laigter
